import Mathlib

/-!
# Verification of the Synapto text-to-sign-language animation core

A shallow embedding, in Lean 4, of the pure core of the Synapto sign-language
animation pipeline:

* `src/components/features/sign-3d/sign-poses.ts` — hand-pose model, letter and
  word pose tables (ASL and ISL), the gloss resolver `textToSignGloss`, and the
  pose interpolator `interpolatePose`;
* `src/components/features/sign-3d/lip-sync-engine.ts` — viseme tables,
  `generateLipSync` and `getVisemeAtTime`;
* `src/components/features/sign-3d/avatar-model.tsx` — the emotion engine
  (`analyzeEmotion`, `getExpression`) and its data;
* `src/components/features/sign-3d/sign-language-3d.tsx` — the playback
  controller, embedded as an explicit state machine over the controller's
  playback-relevant state, with the JavaScript timer queue modelled as a
  multiset (list) of pending timeout identifiers.

JavaScript numbers are modelled as rationals (`ℚ`); decimal literals of the
source are written as explicit fractions (`0.3` becomes `3/10`) because the
value is the same and fraction literals evaluate well.  JavaScript records used
as lookup tables are modelled as association lists with `List.lookup`
(`table[k]` returning `undefined` becomes `none`).  The digest of the theorems
proved here is kept alongside in `RESULTS.json`.
-/

set_option maxRecDepth 8000

namespace Synapto

/-- `{ curl, spread }` record of an `mcp` joint (sign-poses.ts, `FingerPose`). -/
structure Joint2 where
  curl : ℚ
  spread : ℚ
deriving DecidableEq, Repr

/-- `{ curl }` record of a `pip`/`dip` joint (sign-poses.ts, `FingerPose`). -/
structure Joint1 where
  curl : ℚ
deriving DecidableEq, Repr

/-- `FingerPose` of sign-poses.ts: base knuckle, middle joint, tip joint. -/
structure FingerPose where
  mcp : Joint2
  pip : Joint1
  dip : Joint1
deriving DecidableEq, Repr

/-- The optional `wrist` record of a `HandPose`. -/
structure Wrist where
  pitch : ℚ
  yaw : ℚ
  roll : ℚ
deriving DecidableEq, Repr

/-- `HandPose` of sign-poses.ts: five fingers plus optional wrist. -/
structure HandPose where
  thumb : FingerPose
  index : FingerPose
  middle : FingerPose
  ring : FingerPose
  pinky : FingerPose
  wrist : Option Wrist := none
deriving DecidableEq, Repr

/-- The `'static' | 'motion'` tag of a `SignAnimation`. -/
inductive SignAnimType where
  | static
  | motion
deriving DecidableEq, Repr

/-- `SignAnimation` of sign-poses.ts. -/
structure SignAnimation where
  name : String
  type : SignAnimType
  category : String
  description : String
  poses : List HandPose
  durations : Option (List ℚ) := none
  loop : Option Bool := none
deriving DecidableEq, Repr

/-- `SignLanguageMode` of sign-poses.ts: `'asl' | 'isl'`. -/
inductive SignLanguageMode where
  | asl
  | isl
deriving DecidableEq, Repr

-- ─── Shorthand helpers (sign-poses.ts lines 31-120) ───

def curled (spread : ℚ := 0) : FingerPose :=
  { mcp := { curl := 15/10, spread := spread }, pip := { curl := 15/10 }, dip := { curl := 12/10 } }

def extended (spread : ℚ := 0) : FingerPose :=
  { mcp := { curl := 0, spread := spread }, pip := { curl := 0 }, dip := { curl := 0 } }

def bent (spread : ℚ := 0) : FingerPose :=
  { mcp := { curl := 12/10, spread := spread }, pip := { curl := 6/10 }, dip := { curl := 4/10 } }

def hooked (spread : ℚ := 0) : FingerPose :=
  { mcp := { curl := 3/10, spread := spread }, pip := { curl := 14/10 }, dip := { curl := 12/10 } }

def halfCurl (spread : ℚ := 0) : FingerPose :=
  { mcp := { curl := 8/10, spread := spread }, pip := { curl := 8/10 }, dip := { curl := 6/10 } }

def slightBend (spread : ℚ := 0) : FingerPose :=
  { mcp := { curl := 4/10, spread := spread }, pip := { curl := 3/10 }, dip := { curl := 2/10 } }

def flatBent (spread : ℚ := 0) : FingerPose :=
  { mcp := { curl := 12/10, spread := spread }, pip := { curl := 0 }, dip := { curl := 0 } }

def thumbSide : FingerPose :=
  { mcp := { curl := 2/10, spread := 5/10 }, pip := { curl := 1/10 }, dip := { curl := 1/10 } }

def thumbAcross : FingerPose :=
  { mcp := { curl := 8/10, spread := (-3/10) }, pip := { curl := 5/10 }, dip := { curl := 3/10 } }

def thumbTucked : FingerPose :=
  { mcp := { curl := 1, spread := (-2/10) }, pip := { curl := 8/10 }, dip := { curl := 6/10 } }

def thumbOut : FingerPose :=
  { mcp := { curl := 0, spread := 8/10 }, pip := { curl := 0 }, dip := { curl := 0 } }

def thumbBetween : FingerPose :=
  { mcp := { curl := 6/10, spread := 1/10 }, pip := { curl := 3/10 }, dip := { curl := 2/10 } }

def thumbUp : FingerPose :=
  { mcp := { curl := 0, spread := 9/10 }, pip := { curl := 0 }, dip := { curl := 0 } }

def thumbDown : FingerPose :=
  { mcp := { curl := 0, spread := 9/10 }, pip := { curl := 0 }, dip := { curl := 0 } }

def thumbTip : FingerPose :=
  { mcp := { curl := 5/10, spread := 3/10 }, pip := { curl := 4/10 }, dip := { curl := 3/10 } }

def ASL_LETTER_POSES : List (Char × HandPose) := [
  ('a', { thumb := thumbSide, index := curled, middle := curled, ring := curled, pinky := curled }),
  ('b', { thumb := thumbTucked, index := extended, middle := extended, ring := extended, pinky := extended }),
  ('c', { thumb := { mcp := { curl := 4/10, spread := 6/10 }, pip := { curl := 3/10 }, dip := { curl := 2/10 } }, index := halfCurl (1/10), middle := halfCurl (5/100), ring := halfCurl (-5/100), pinky := halfCurl (-1/10) }),
  ('d', { thumb := { mcp := { curl := 8/10, spread := (-2/10) }, pip := { curl := 6/10 }, dip := { curl := 4/10 } }, index := extended, middle := curled, ring := curled, pinky := curled }),
  ('e', { thumb := thumbTucked, index := bent, middle := bent, ring := bent, pinky := bent }),
  ('f', { thumb := { mcp := { curl := 6/10, spread := 0 }, pip := { curl := 5/10 }, dip := { curl := 4/10 } }, index := hooked, middle := extended (5/100), ring := extended 0, pinky := extended (-5/100) }),
  ('g', { thumb := thumbOut, index := extended, middle := curled, ring := curled, pinky := curled, wrist := some { pitch := 0, yaw := (-12/10), roll := 0 } }),
  ('h', { thumb := thumbOut, index := extended, middle := extended, ring := curled, pinky := curled, wrist := some { pitch := 0, yaw := (-12/10), roll := 0 } }),
  ('i', { thumb := thumbAcross, index := curled, middle := curled, ring := curled, pinky := extended }),
  ('j', { thumb := thumbAcross, index := curled, middle := curled, ring := curled, pinky := extended }),
  ('k', { thumb := { mcp := { curl := 4/10, spread := 2/10 }, pip := { curl := 3/10 }, dip := { curl := 1/10 } }, index := extended (1/10), middle := extended (-1/10), ring := curled, pinky := curled }),
  ('l', { thumb := thumbOut, index := extended, middle := curled, ring := curled, pinky := curled }),
  ('m', { thumb := thumbTucked, index := bent (-1/10), middle := bent 0, ring := bent (1/10), pinky := curled }),
  ('n', { thumb := thumbTucked, index := bent (-5/100), middle := bent (5/100), ring := curled, pinky := curled }),
  ('o', { thumb := { mcp := { curl := 5/10, spread := 3/10 }, pip := { curl := 4/10 }, dip := { curl := 3/10 } }, index := halfCurl (5/100), middle := halfCurl 0, ring := halfCurl (-5/100), pinky := halfCurl (-1/10) }),
  ('p', { thumb := { mcp := { curl := 4/10, spread := 2/10 }, pip := { curl := 3/10 }, dip := { curl := 1/10 } }, index := extended (1/10), middle := extended (-1/10), ring := curled, pinky := curled, wrist := some { pitch := 12/10, yaw := 0, roll := 0 } }),
  ('q', { thumb := thumbOut, index := extended, middle := curled, ring := curled, pinky := curled, wrist := some { pitch := 12/10, yaw := (-8/10), roll := 0 } }),
  ('r', { thumb := thumbAcross, index := extended (5/100), middle := extended (-5/100), ring := curled, pinky := curled }),
  ('s', { thumb := thumbAcross, index := curled, middle := curled, ring := curled, pinky := curled }),
  ('t', { thumb := thumbBetween, index := curled, middle := curled, ring := curled, pinky := curled }),
  ('u', { thumb := thumbTucked, index := extended 0, middle := extended 0, ring := curled, pinky := curled }),
  ('v', { thumb := thumbAcross, index := extended (15/100), middle := extended (-15/100), ring := curled, pinky := curled }),
  ('w', { thumb := thumbTucked, index := extended (1/10), middle := extended 0, ring := extended (-1/10), pinky := curled }),
  ('x', { thumb := thumbAcross, index := hooked, middle := curled, ring := curled, pinky := curled }),
  ('y', { thumb := thumbOut, index := curled, middle := curled, ring := curled, pinky := extended }),
  ('z', { thumb := thumbAcross, index := extended, middle := curled, ring := curled, pinky := curled })
]

def ISL_LETTER_POSES : List (Char × HandPose) := [
  ('a', { thumb := thumbOut, index := extended, middle := curled, ring := curled, pinky := curled, wrist := some { pitch := 0, yaw := 0, roll := 0 } }),
  ('b', { thumb := thumbTucked, index := extended, middle := extended, ring := extended, pinky := extended, wrist := some { pitch := 0, yaw := 0, roll := 0 } }),
  ('c', { thumb := { mcp := { curl := 4/10, spread := 6/10 }, pip := { curl := 3/10 }, dip := { curl := 2/10 } }, index := halfCurl (1/10), middle := halfCurl (5/100), ring := halfCurl (-5/100), pinky := halfCurl (-1/10), wrist := some { pitch := 0, yaw := (-3/10), roll := 0 } }),
  ('d', { thumb := thumbTip, index := extended, middle := curled, ring := curled, pinky := curled, wrist := some { pitch := 0, yaw := 0, roll := 0 } }),
  ('e', { thumb := thumbTucked, index := slightBend, middle := slightBend, ring := slightBend, pinky := slightBend }),
  ('f', { thumb := thumbTip, index := hooked, middle := extended (5/100), ring := extended 0, pinky := extended (-5/100) }),
  ('g', { thumb := thumbAcross, index := extended, middle := curled, ring := curled, pinky := curled, wrist := some { pitch := 0, yaw := (-8/10), roll := 0 } }),
  ('h', { thumb := thumbTucked, index := extended, middle := extended, ring := curled, pinky := curled, wrist := some { pitch := 0, yaw := 0, roll := (-3/10) } }),
  ('i', { thumb := thumbAcross, index := curled, middle := curled, ring := curled, pinky := extended, wrist := some { pitch := 0, yaw := 0, roll := 0 } }),
  ('j', { thumb := thumbAcross, index := curled, middle := curled, ring := curled, pinky := extended, wrist := some { pitch := 0, yaw := 0, roll := 3/10 } }),
  ('k', { thumb := { mcp := { curl := 3/10, spread := 4/10 }, pip := { curl := 2/10 }, dip := { curl := 1/10 } }, index := extended (15/100), middle := extended (-1/10), ring := curled, pinky := curled }),
  ('l', { thumb := thumbOut, index := extended, middle := curled, ring := curled, pinky := curled, wrist := some { pitch := 0, yaw := 0, roll := 0 } }),
  ('m', { thumb := thumbTucked, index := flatBent (-1/10), middle := flatBent 0, ring := flatBent (1/10), pinky := curled }),
  ('n', { thumb := thumbTucked, index := flatBent (-5/100), middle := flatBent (5/100), ring := curled, pinky := curled }),
  ('o', { thumb := thumbTip, index := halfCurl (5/100), middle := halfCurl 0, ring := halfCurl (-5/100), pinky := halfCurl (-1/10) }),
  ('p', { thumb := thumbOut, index := extended (1/10), middle := extended (-1/10), ring := curled, pinky := curled, wrist := some { pitch := 8/10, yaw := 0, roll := 0 } }),
  ('q', { thumb := thumbOut, index := extended, middle := curled, ring := curled, pinky := curled, wrist := some { pitch := 10/10, yaw := (-5/10), roll := 0 } }),
  ('r', { thumb := thumbAcross, index := extended (5/100), middle := extended (-5/100), ring := curled, pinky := curled, wrist := some { pitch := 0, yaw := 0, roll := 2/10 } }),
  ('s', { thumb := thumbAcross, index := curled, middle := curled, ring := curled, pinky := curled, wrist := some { pitch := 0, yaw := 0, roll := 0 } }),
  ('t', { thumb := thumbBetween, index := curled, middle := curled, ring := curled, pinky := curled }),
  ('u', { thumb := thumbTucked, index := extended 0, middle := extended 0, ring := curled, pinky := curled, wrist := some { pitch := 0, yaw := 0, roll := 0 } }),
  ('v', { thumb := thumbAcross, index := extended (15/100), middle := extended (-15/100), ring := curled, pinky := curled }),
  ('w', { thumb := thumbTucked, index := extended (1/10), middle := extended 0, ring := extended (-1/10), pinky := curled }),
  ('x', { thumb := thumbAcross, index := hooked, middle := curled, ring := curled, pinky := curled }),
  ('y', { thumb := thumbOut, index := curled, middle := curled, ring := curled, pinky := extended }),
  ('z', { thumb := thumbAcross, index := extended, middle := curled, ring := curled, pinky := curled, wrist := some { pitch := 0, yaw := 0, roll := 3/10 } })
]

def ASL_WORD_ANIMATIONS : List (String × SignAnimation) := [
  ("hello",
   { name := "HELLO",
     type := SignAnimType.motion,
     category := "Greeting",
     description := "Wave hand outward from forehead",
     poses := [
        { thumb := thumbSide, index := extended (5/100), middle := extended 0, ring := extended (-5/100), pinky := extended (-1/10), wrist := some { pitch := (-3/10), yaw := 0, roll := 0 } },
        { thumb := thumbSide, index := extended (1/10), middle := extended (5/100), ring := extended 0, pinky := extended (-5/100), wrist := some { pitch := (-1/10), yaw := 3/10, roll := 15/100 } },
        { thumb := thumbSide, index := extended (5/100), middle := extended 0, ring := extended (-5/100), pinky := extended (-1/10), wrist := some { pitch := 1/10, yaw := 5/10, roll := (-1/10) } }],
     durations := some [400, 350, 300] }),
  ("thank you",
   { name := "THANK YOU",
     type := SignAnimType.motion,
     category := "Politeness",
     description := "Flat hand from chin outward",
     poses := [
        { thumb := thumbSide, index := extended, middle := extended, ring := extended, pinky := extended, wrist := some { pitch := (-5/10), yaw := 0, roll := 0 } },
        { thumb := thumbSide, index := extended, middle := extended, ring := extended, pinky := extended, wrist := some { pitch := 3/10, yaw := 0, roll := 0 } }],
     durations := some [500, 400] }),
  ("thanks",
   { name := "THANKS",
     type := SignAnimType.motion,
     category := "Politeness",
     description := "Same as THANK YOU — flat hand from chin",
     poses := [
        { thumb := thumbSide, index := extended, middle := extended, ring := extended, pinky := extended, wrist := some { pitch := (-5/10), yaw := 0, roll := 0 } },
        { thumb := thumbSide, index := extended, middle := extended, ring := extended, pinky := extended, wrist := some { pitch := 3/10, yaw := 0, roll := 0 } }],
     durations := some [500, 400] }),
  ("please",
   { name := "PLEASE",
     type := SignAnimType.motion,
     category := "Politeness",
     description := "Flat hand circles on chest",
     poses := [
        { thumb := thumbSide, index := extended, middle := extended, ring := extended, pinky := extended, wrist := some { pitch := 0, yaw := 0, roll := 0 } },
        { thumb := thumbSide, index := extended, middle := extended, ring := extended, pinky := extended, wrist := some { pitch := 2/10, yaw := 2/10, roll := 1/10 } },
        { thumb := thumbSide, index := extended, middle := extended, ring := extended, pinky := extended, wrist := some { pitch := 0, yaw := 0, roll := (-1/10) } }],
     durations := some [400, 400, 400],
     loop := some true }),
  ("yes",
   { name := "YES",
     type := SignAnimType.motion,
     category := "Response",
     description := "Fist nods up and down",
     poses := [
        { thumb := thumbAcross, index := curled, middle := curled, ring := curled, pinky := curled, wrist := some { pitch := (-4/10), yaw := 0, roll := 0 } },
        { thumb := thumbAcross, index := curled, middle := curled, ring := curled, pinky := curled, wrist := some { pitch := 4/10, yaw := 0, roll := 0 } },
        { thumb := thumbAcross, index := curled, middle := curled, ring := curled, pinky := curled, wrist := some { pitch := (-4/10), yaw := 0, roll := 0 } }],
     durations := some [300, 300, 300] }),
  ("no",
   { name := "NO",
     type := SignAnimType.motion,
     category := "Response",
     description := "Fingers snap against thumb",
     poses := [
        { thumb := thumbOut, index := extended (1/10), middle := extended (-1/10), ring := curled, pinky := curled, wrist := some { pitch := 0, yaw := 0, roll := 0 } },
        { thumb := { mcp := { curl := 6/10, spread := 0 }, pip := { curl := 4/10 }, dip := { curl := 3/10 } }, index := halfCurl (1/10), middle := halfCurl (-1/10), ring := curled, pinky := curled, wrist := some { pitch := 0, yaw := 0, roll := 0 } }],
     durations := some [250, 250] }),
  ("sorry",
   { name := "SORRY",
     type := SignAnimType.motion,
     category := "Emotion",
     description := "Fist circles on chest",
     poses := [
        { thumb := thumbAcross, index := curled, middle := curled, ring := curled, pinky := curled, wrist := some { pitch := 0, yaw := 0, roll := 0 } },
        { thumb := thumbAcross, index := curled, middle := curled, ring := curled, pinky := curled, wrist := some { pitch := 2/10, yaw := 2/10, roll := 0 } },
        { thumb := thumbAcross, index := curled, middle := curled, ring := curled, pinky := curled, wrist := some { pitch := 0, yaw := (-2/10), roll := 0 } }],
     durations := some [400, 400, 400],
     loop := some true }),
  ("help",
   { name := "HELP",
     type := SignAnimType.motion,
     category := "Action",
     description := "Fist on flat palm, both rise up",
     poses := [
        { thumb := thumbSide, index := curled, middle := curled, ring := curled, pinky := curled, wrist := some { pitch := 0, yaw := 0, roll := 0 } },
        { thumb := thumbSide, index := curled, middle := curled, ring := curled, pinky := curled, wrist := some { pitch := (-5/10), yaw := 0, roll := 0 } }],
     durations := some [500, 400] }),
  ("love",
   { name := "LOVE / I LOVE YOU",
     type := SignAnimType.static,
     category := "Emotion",
     description := "ILY sign — thumb, index, pinky extended",
     poses := [
        { thumb := thumbOut, index := extended, middle := curled, ring := curled, pinky := extended }] }),
  ("friend",
   { name := "FRIEND",
     type := SignAnimType.motion,
     category := "People",
     description := "Hooked index fingers link together",
     poses := [
        { thumb := thumbAcross, index := hooked, middle := curled, ring := curled, pinky := curled, wrist := some { pitch := 0, yaw := 0, roll := 0 } },
        { thumb := thumbAcross, index := hooked, middle := curled, ring := curled, pinky := curled, wrist := some { pitch := 0, yaw := 0, roll := 5/10 } }],
     durations := some [400, 400] }),
  ("learn",
   { name := "LEARN",
     type := SignAnimType.motion,
     category := "Education",
     description := "Pick up knowledge from palm to forehead",
     poses := [
        { thumb := thumbSide, index := extended, middle := extended, ring := extended, pinky := extended, wrist := some { pitch := 3/10, yaw := 0, roll := 0 } },
        { thumb := thumbTip, index := halfCurl, middle := halfCurl, ring := halfCurl, pinky := halfCurl, wrist := some { pitch := (-5/10), yaw := 0, roll := 0 } }],
     durations := some [500, 500] }),
  ("good",
   { name := "GOOD",
     type := SignAnimType.motion,
     category := "Description",
     description := "Flat hand from chin downward to open palm",
     poses := [
        { thumb := thumbSide, index := extended, middle := extended, ring := extended, pinky := extended, wrist := some { pitch := (-4/10), yaw := 0, roll := 0 } },
        { thumb := thumbSide, index := extended, middle := extended, ring := extended, pinky := extended, wrist := some { pitch := 4/10, yaw := 0, roll := 0 } }],
     durations := some [400, 400] }),
  ("bad",
   { name := "BAD",
     type := SignAnimType.motion,
     category := "Description",
     description := "Flat hand from chin, turns downward",
     poses := [
        { thumb := thumbSide, index := extended, middle := extended, ring := extended, pinky := extended, wrist := some { pitch := (-3/10), yaw := 0, roll := 0 } },
        { thumb := thumbSide, index := extended, middle := extended, ring := extended, pinky := extended, wrist := some { pitch := 5/10, yaw := 0, roll := 5/10 } }],
     durations := some [400, 350] }),
  ("want",
   { name := "WANT",
     type := SignAnimType.motion,
     category := "Action",
     description := "Clawed hands pull toward body",
     poses := [
        { thumb := thumbOut, index := hooked (1/10), middle := hooked 0, ring := hooked (-5/100), pinky := hooked (-1/10), wrist := some { pitch := 0, yaw := 0, roll := 0 } },
        { thumb := thumbOut, index := hooked (1/10), middle := hooked 0, ring := hooked (-5/100), pinky := hooked (-1/10), wrist := some { pitch := (-4/10), yaw := 0, roll := 0 } }],
     durations := some [400, 400] }),
  ("need",
   { name := "NEED",
     type := SignAnimType.motion,
     category := "Action",
     description := "Bent index finger nods downward",
     poses := [
        { thumb := thumbAcross, index := hooked, middle := curled, ring := curled, pinky := curled, wrist := some { pitch := (-3/10), yaw := 0, roll := 0 } },
        { thumb := thumbAcross, index := hooked, middle := curled, ring := curled, pinky := curled, wrist := some { pitch := 4/10, yaw := 0, roll := 0 } }],
     durations := some [350, 350] }),
  ("eat",
   { name := "EAT",
     type := SignAnimType.motion,
     category := "Action",
     description := "Bunched fingers tap to mouth repeatedly",
     poses := [
        { thumb := thumbTip, index := halfCurl, middle := halfCurl, ring := halfCurl, pinky := halfCurl, wrist := some { pitch := (-5/10), yaw := 0, roll := 0 } },
        { thumb := thumbTip, index := halfCurl, middle := halfCurl, ring := halfCurl, pinky := halfCurl, wrist := some { pitch := (-2/10), yaw := 0, roll := 0 } },
        { thumb := thumbTip, index := halfCurl, middle := halfCurl, ring := halfCurl, pinky := halfCurl, wrist := some { pitch := (-5/10), yaw := 0, roll := 0 } }],
     durations := some [300, 250, 300],
     loop := some true }),
  ("drink",
   { name := "DRINK",
     type := SignAnimType.motion,
     category := "Action",
     description := "C-hand tilts toward mouth like drinking",
     poses := [
        { thumb := { mcp := { curl := 4/10, spread := 5/10 }, pip := { curl := 3/10 }, dip := { curl := 2/10 } }, index := halfCurl (1/10), middle := halfCurl 0, ring := halfCurl (-5/100), pinky := halfCurl (-1/10), wrist := some { pitch := (-2/10), yaw := 0, roll := 0 } },
        { thumb := { mcp := { curl := 4/10, spread := 5/10 }, pip := { curl := 3/10 }, dip := { curl := 2/10 } }, index := halfCurl (1/10), middle := halfCurl 0, ring := halfCurl (-5/100), pinky := halfCurl (-1/10), wrist := some { pitch := (-7/10), yaw := 0, roll := 3/10 } }],
     durations := some [500, 500] }),
  ("water",
   { name := "WATER",
     type := SignAnimType.motion,
     category := "Object",
     description := "W-hand taps chin — index, middle, ring extended",
     poses := [
        { thumb := thumbTucked, index := extended (1/10), middle := extended 0, ring := extended (-1/10), pinky := curled, wrist := some { pitch := (-3/10), yaw := 0, roll := 0 } },
        { thumb := thumbTucked, index := extended (1/10), middle := extended 0, ring := extended (-1/10), pinky := curled, wrist := some { pitch := (-5/10), yaw := 0, roll := 0 } },
        { thumb := thumbTucked, index := extended (1/10), middle := extended 0, ring := extended (-1/10), pinky := curled, wrist := some { pitch := (-3/10), yaw := 0, roll := 0 } }],
     durations := some [300, 250, 300] }),
  ("home",
   { name := "HOME",
     type := SignAnimType.motion,
     category := "Place",
     description := "Bunched fingertips touch cheek then jaw",
     poses := [
        { thumb := thumbTip, index := halfCurl, middle := halfCurl, ring := halfCurl, pinky := halfCurl, wrist := some { pitch := (-3/10), yaw := 2/10, roll := 0 } },
        { thumb := thumbTip, index := halfCurl, middle := halfCurl, ring := halfCurl, pinky := halfCurl, wrist := some { pitch := (-1/10), yaw := 4/10, roll := 0 } }],
     durations := some [400, 400] }),
  ("school",
   { name := "SCHOOL",
     type := SignAnimType.motion,
     category := "Place",
     description := "Clap flat hands together twice",
     poses := [
        { thumb := thumbSide, index := extended, middle := extended, ring := extended, pinky := extended, wrist := some { pitch := 2/10, yaw := 0, roll := 0 } },
        { thumb := thumbSide, index := extended, middle := extended, ring := extended, pinky := extended, wrist := some { pitch := (-2/10), yaw := 0, roll := 0 } },
        { thumb := thumbSide, index := extended, middle := extended, ring := extended, pinky := extended, wrist := some { pitch := 2/10, yaw := 0, roll := 0 } }],
     durations := some [300, 250, 300] }),
  ("work",
   { name := "WORK",
     type := SignAnimType.motion,
     category := "Action",
     description := "Fist taps on other fist twice",
     poses := [
        { thumb := thumbAcross, index := curled, middle := curled, ring := curled, pinky := curled, wrist := some { pitch := (-3/10), yaw := 0, roll := 0 } },
        { thumb := thumbAcross, index := curled, middle := curled, ring := curled, pinky := curled, wrist := some { pitch := 2/10, yaw := 0, roll := 0 } },
        { thumb := thumbAcross, index := curled, middle := curled, ring := curled, pinky := curled, wrist := some { pitch := (-3/10), yaw := 0, roll := 0 } }],
     durations := some [300, 250, 300] }),
  ("name",
   { name := "NAME",
     type := SignAnimType.motion,
     category := "Communication",
     description := "H-hand taps on H-hand",
     poses := [
        { thumb := thumbOut, index := extended, middle := extended, ring := curled, pinky := curled, wrist := some { pitch := 0, yaw := (-5/10), roll := 0 } },
        { thumb := thumbOut, index := extended, middle := extended, ring := curled, pinky := curled, wrist := some { pitch := 3/10, yaw := (-5/10), roll := 0 } }],
     durations := some [350, 350] }),
  ("what",
   { name := "WHAT",
     type := SignAnimType.motion,
     category := "Question",
     description := "Open hands shake side to side",
     poses := [
        { thumb := thumbSide, index := extended (1/10), middle := extended 0, ring := extended (-5/100), pinky := extended (-1/10), wrist := some { pitch := 0, yaw := (-3/10), roll := 0 } },
        { thumb := thumbSide, index := extended (1/10), middle := extended 0, ring := extended (-5/100), pinky := extended (-1/10), wrist := some { pitch := 0, yaw := 3/10, roll := 0 } }],
     durations := some [350, 350] }),
  ("where",
   { name := "WHERE",
     type := SignAnimType.motion,
     category := "Question",
     description := "Index finger wags side to side",
     poses := [
        { thumb := thumbAcross, index := extended, middle := curled, ring := curled, pinky := curled, wrist := some { pitch := 0, yaw := (-3/10), roll := 0 } },
        { thumb := thumbAcross, index := extended, middle := curled, ring := curled, pinky := curled, wrist := some { pitch := 0, yaw := 3/10, roll := 0 } },
        { thumb := thumbAcross, index := extended, middle := curled, ring := curled, pinky := curled, wrist := some { pitch := 0, yaw := (-3/10), roll := 0 } }],
     durations := some [300, 300, 300] }),
  ("how",
   { name := "HOW",
     type := SignAnimType.motion,
     category := "Question",
     description := "Fists together, palms in, roll forward to open",
     poses := [
        { thumb := thumbAcross, index := curled, middle := curled, ring := curled, pinky := curled, wrist := some { pitch := 3/10, yaw := 0, roll := 0 } },
        { thumb := thumbSide, index := extended, middle := extended, ring := extended, pinky := extended, wrist := some { pitch := (-3/10), yaw := 0, roll := 0 } }],
     durations := some [500, 500] }),
  ("why",
   { name := "WHY",
     type := SignAnimType.motion,
     category := "Question",
     description := "Fingers touch forehead, pull down to Y-hand",
     poses := [
        { thumb := thumbSide, index := extended, middle := extended, ring := extended, pinky := extended, wrist := some { pitch := (-5/10), yaw := 0, roll := 0 } },
        { thumb := thumbOut, index := curled, middle := curled, ring := curled, pinky := extended, wrist := some { pitch := 2/10, yaw := 0, roll := 0 } }],
     durations := some [500, 500] }),
  ("stop",
   { name := "STOP",
     type := SignAnimType.motion,
     category := "Action",
     description := "Flat hand chops down on flat palm",
     poses := [
        { thumb := thumbSide, index := extended, middle := extended, ring := extended, pinky := extended, wrist := some { pitch := (-5/10), yaw := (-3/10), roll := 0 } },
        { thumb := thumbSide, index := extended, middle := extended, ring := extended, pinky := extended, wrist := some { pitch := 3/10, yaw := (-3/10), roll := 0 } }],
     durations := some [300, 300] }),
  ("go",
   { name := "GO",
     type := SignAnimType.motion,
     category := "Action",
     description := "Index fingers point and arc forward",
     poses := [
        { thumb := thumbAcross, index := extended, middle := curled, ring := curled, pinky := curled, wrist := some { pitch := (-2/10), yaw := 0, roll := 0 } },
        { thumb := thumbAcross, index := extended, middle := curled, ring := curled, pinky := curled, wrist := some { pitch := 4/10, yaw := 0, roll := 2/10 } }],
     durations := some [400, 400] }),
  ("come",
   { name := "COME",
     type := SignAnimType.motion,
     category := "Action",
     description := "Index finger beckons toward body",
     poses := [
        { thumb := thumbAcross, index := extended, middle := curled, ring := curled, pinky := curled, wrist := some { pitch := 3/10, yaw := 0, roll := 0 } },
        { thumb := thumbAcross, index := hooked, middle := curled, ring := curled, pinky := curled, wrist := some { pitch := (-2/10), yaw := 0, roll := 0 } }],
     durations := some [400, 400] }),
  ("happy",
   { name := "HAPPY",
     type := SignAnimType.motion,
     category := "Emotion",
     description := "Flat hand brushes up chest repeatedly",
     poses := [
        { thumb := thumbSide, index := extended, middle := extended, ring := extended, pinky := extended, wrist := some { pitch := 2/10, yaw := 0, roll := 0 } },
        { thumb := thumbSide, index := extended, middle := extended, ring := extended, pinky := extended, wrist := some { pitch := (-3/10), yaw := 0, roll := 0 } },
        { thumb := thumbSide, index := extended, middle := extended, ring := extended, pinky := extended, wrist := some { pitch := 2/10, yaw := 0, roll := 0 } }],
     durations := some [350, 300, 350] }),
  ("sad",
   { name := "SAD",
     type := SignAnimType.motion,
     category := "Emotion",
     description := "Open hands move down in front of face",
     poses := [
        { thumb := thumbSide, index := extended (5/100), middle := extended 0, ring := extended (-5/100), pinky := extended (-1/10), wrist := some { pitch := (-3/10), yaw := 0, roll := 0 } },
        { thumb := thumbSide, index := extended (5/100), middle := extended 0, ring := extended (-5/100), pinky := extended (-1/10), wrist := some { pitch := 4/10, yaw := 0, roll := 0 } }],
     durations := some [600, 600] }),
  ("understand",
   { name := "UNDERSTAND",
     type := SignAnimType.motion,
     category := "Communication",
     description := "Index finger flicks up near temple",
     poses := [
        { thumb := thumbAcross, index := curled, middle := curled, ring := curled, pinky := curled, wrist := some { pitch := (-3/10), yaw := 3/10, roll := 0 } },
        { thumb := thumbAcross, index := extended, middle := curled, ring := curled, pinky := curled, wrist := some { pitch := (-5/10), yaw := 3/10, roll := 0 } }],
     durations := some [400, 350] }),
  ("think",
   { name := "THINK",
     type := SignAnimType.static,
     category := "Communication",
     description := "Index finger touches forehead",
     poses := [
        { thumb := thumbAcross, index := extended, middle := curled, ring := curled, pinky := curled, wrist := some { pitch := (-5/10), yaw := 2/10, roll := 0 } }] }),
  ("know",
   { name := "KNOW",
     type := SignAnimType.motion,
     category := "Communication",
     description := "Flat fingers tap forehead",
     poses := [
        { thumb := thumbSide, index := extended, middle := extended, ring := extended, pinky := extended, wrist := some { pitch := (-5/10), yaw := 2/10, roll := 0 } },
        { thumb := thumbSide, index := extended, middle := extended, ring := extended, pinky := extended, wrist := some { pitch := (-3/10), yaw := 2/10, roll := 0 } }],
     durations := some [350, 350] }),
  ("like",
   { name := "LIKE",
     type := SignAnimType.motion,
     category := "Emotion",
     description := "Open hand pulls away from chest, closes",
     poses := [
        { thumb := thumbOut, index := extended, middle := extended, ring := extended, pinky := extended, wrist := some { pitch := 0, yaw := 0, roll := 0 } },
        { thumb := thumbTip, index := halfCurl, middle := halfCurl, ring := halfCurl, pinky := halfCurl, wrist := some { pitch := 2/10, yaw := 0, roll := 0 } }],
     durations := some [500, 400] }),
  ("don",
   { name := "DON\x27T",
     type := SignAnimType.motion,
     category := "Response",
     description := "Arms cross outward from center",
     poses := [
        { thumb := thumbSide, index := extended, middle := extended, ring := extended, pinky := extended, wrist := some { pitch := 0, yaw := 3/10, roll := 0 } },
        { thumb := thumbSide, index := extended, middle := extended, ring := extended, pinky := extended, wrist := some { pitch := 0, yaw := (-5/10), roll := (0 - 2) } }],
     durations := some [350, 350] }),
  ("can",
   { name := "CAN",
     type := SignAnimType.motion,
     category := "Action",
     description := "Both fists move down together",
     poses := [
        { thumb := thumbAcross, index := curled, middle := curled, ring := curled, pinky := curled, wrist := some { pitch := (-3/10), yaw := 0, roll := 0 } },
        { thumb := thumbAcross, index := curled, middle := curled, ring := curled, pinky := curled, wrist := some { pitch := 3/10, yaw := 0, roll := 0 } }],
     durations := some [400, 400] }),
  ("more",
   { name := "MORE",
     type := SignAnimType.motion,
     category := "Quantity",
     description := "Bunched fingertips tap together",
     poses := [
        { thumb := thumbTip, index := halfCurl (5/100), middle := halfCurl 0, ring := halfCurl (-5/100), pinky := halfCurl (-1/10), wrist := some { pitch := 0, yaw := (-2/10), roll := 0 } },
        { thumb := thumbTip, index := halfCurl (5/100), middle := halfCurl 0, ring := halfCurl (-5/100), pinky := halfCurl (-1/10), wrist := some { pitch := 0, yaw := 2/10, roll := 0 } },
        { thumb := thumbTip, index := halfCurl (5/100), middle := halfCurl 0, ring := halfCurl (-5/100), pinky := halfCurl (-1/10), wrist := some { pitch := 0, yaw := (-2/10), roll := 0 } }],
     durations := some [300, 250, 300] }),
  ("teacher",
   { name := "TEACHER",
     type := SignAnimType.motion,
     category := "People",
     description := "Bunched fingers from temples outward + person marker",
     poses := [
        { thumb := thumbTip, index := halfCurl, middle := halfCurl, ring := halfCurl, pinky := halfCurl, wrist := some { pitch := (-4/10), yaw := 3/10, roll := 0 } },
        { thumb := thumbTip, index := halfCurl, middle := halfCurl, ring := halfCurl, pinky := halfCurl, wrist := some { pitch := (-2/10), yaw := 5/10, roll := 0 } },
        { thumb := thumbSide, index := extended, middle := extended, ring := extended, pinky := extended, wrist := some { pitch := 3/10, yaw := 0, roll := 0 } }],
     durations := some [400, 350, 400] }),
  ("student",
   { name := "STUDENT",
     type := SignAnimType.motion,
     category := "People",
     description := "Pick up from palm to forehead + person marker",
     poses := [
        { thumb := thumbSide, index := extended, middle := extended, ring := extended, pinky := extended, wrist := some { pitch := 3/10, yaw := 0, roll := 0 } },
        { thumb := thumbTip, index := halfCurl, middle := halfCurl, ring := halfCurl, pinky := halfCurl, wrist := some { pitch := (-5/10), yaw := 0, roll := 0 } },
        { thumb := thumbSide, index := extended, middle := extended, ring := extended, pinky := extended, wrist := some { pitch := 3/10, yaw := 0, roll := 0 } }],
     durations := some [400, 400, 400] }),
  ("family",
   { name := "FAMILY",
     type := SignAnimType.motion,
     category := "People",
     description := "F-hands circle outward to connect",
     poses := [
        { thumb := thumbTip, index := hooked, middle := extended, ring := extended, pinky := extended, wrist := some { pitch := 0, yaw := (-3/10), roll := 0 } },
        { thumb := thumbTip, index := hooked, middle := extended, ring := extended, pinky := extended, wrist := some { pitch := 0, yaw := 3/10, roll := 0 } }],
     durations := some [500, 500],
     loop := some true }),
  ("play",
   { name := "PLAY",
     type := SignAnimType.motion,
     category := "Action",
     description := "Y-hands shake",
     poses := [
        { thumb := thumbOut, index := curled, middle := curled, ring := curled, pinky := extended, wrist := some { pitch := 0, yaw := 0, roll := (-3/10) } },
        { thumb := thumbOut, index := curled, middle := curled, ring := curled, pinky := extended, wrist := some { pitch := 0, yaw := 0, roll := 3/10 } },
        { thumb := thumbOut, index := curled, middle := curled, ring := curled, pinky := extended, wrist := some { pitch := 0, yaw := 0, roll := (-3/10) } }],
     durations := some [300, 300, 300] }),
  ("time",
   { name := "TIME",
     type := SignAnimType.motion,
     category := "Concept",
     description := "Index finger taps wrist (like pointing at watch)",
     poses := [
        { thumb := thumbAcross, index := extended, middle := curled, ring := curled, pinky := curled, wrist := some { pitch := 3/10, yaw := (-3/10), roll := 0 } },
        { thumb := thumbAcross, index := extended, middle := curled, ring := curled, pinky := curled, wrist := some { pitch := 5/10, yaw := (-3/10), roll := 0 } }],
     durations := some [350, 350] }),
  ("today",
   { name := "TODAY",
     type := SignAnimType.motion,
     category := "Time",
     description := "Both hands drop down in front of body",
     poses := [
        { thumb := thumbSide, index := extended, middle := extended, ring := extended, pinky := extended, wrist := some { pitch := (-3/10), yaw := 0, roll := 0 } },
        { thumb := thumbSide, index := extended, middle := extended, ring := extended, pinky := extended, wrist := some { pitch := 3/10, yaw := 0, roll := 0 } }],
     durations := some [400, 400] })
]

def ISL_WORD_ANIMATION_OVERRIDES : List (String × SignAnimation) := [
  ("hello",
   { name := "NAMASTE / HELLO",
     type := SignAnimType.motion,
     category := "Greeting",
     description := "Palms together, slight bow (Namaste gesture)",
     poses := [
        { thumb := thumbSide, index := extended, middle := extended, ring := extended, pinky := extended, wrist := some { pitch := (-2/10), yaw := 0, roll := 0 } },
        { thumb := thumbSide, index := extended, middle := extended, ring := extended, pinky := extended, wrist := some { pitch := (-4/10), yaw := 0, roll := 0 } },
        { thumb := thumbSide, index := extended, middle := extended, ring := extended, pinky := extended, wrist := some { pitch := (-2/10), yaw := 0, roll := 0 } }],
     durations := some [500, 400, 500] }),
  ("thank you",
   { name := "DHANYAVAAD",
     type := SignAnimType.motion,
     category := "Politeness",
     description := "Right hand touches forehead and moves forward (sign of respect)",
     poses := [
        { thumb := thumbSide, index := extended, middle := extended, ring := extended, pinky := extended, wrist := some { pitch := (-5/10), yaw := 2/10, roll := 0 } },
        { thumb := thumbSide, index := extended, middle := extended, ring := extended, pinky := extended, wrist := some { pitch := 2/10, yaw := 2/10, roll := 0 } }],
     durations := some [500, 500] }),
  ("water",
   { name := "PAANI",
     type := SignAnimType.motion,
     category := "Object",
     description := "C-hand gestures as if holding cup and drinking",
     poses := [
        { thumb := { mcp := { curl := 4/10, spread := 5/10 }, pip := { curl := 3/10 }, dip := { curl := 2/10 } }, index := halfCurl (1/10), middle := halfCurl 0, ring := halfCurl (-5/100), pinky := halfCurl (-1/10), wrist := some { pitch := (-2/10), yaw := 0, roll := 0 } },
        { thumb := { mcp := { curl := 4/10, spread := 5/10 }, pip := { curl := 3/10 }, dip := { curl := 2/10 } }, index := halfCurl (1/10), middle := halfCurl 0, ring := halfCurl (-5/100), pinky := halfCurl (-1/10), wrist := some { pitch := (-8/10), yaw := 0, roll := 4/10 } }],
     durations := some [500, 500] }),
  ("school",
   { name := "SCHOOL / VIDYALAYA",
     type := SignAnimType.motion,
     category := "Place",
     description := "Writing motion on palm (study gesture)",
     poses := [
        { thumb := thumbTip, index := extended, middle := curled, ring := curled, pinky := curled, wrist := some { pitch := 0, yaw := (-3/10), roll := 0 } },
        { thumb := thumbTip, index := extended, middle := curled, ring := curled, pinky := curled, wrist := some { pitch := 3/10, yaw := (-3/10), roll := 2/10 } },
        { thumb := thumbTip, index := extended, middle := curled, ring := curled, pinky := curled, wrist := some { pitch := 0, yaw := (-3/10), roll := 0 } }],
     durations := some [350, 300, 350] }),
  ("good",
   { name := "ACCHA / GOOD",
     type := SignAnimType.motion,
     category := "Description",
     description := "Thumbs up with forward motion",
     poses := [
        { thumb := thumbUp, index := curled, middle := curled, ring := curled, pinky := curled, wrist := some { pitch := (-2/10), yaw := 0, roll := 0 } },
        { thumb := thumbUp, index := curled, middle := curled, ring := curled, pinky := curled, wrist := some { pitch := 2/10, yaw := 0, roll := 0 } }],
     durations := some [400, 400] })
]


-- ─── Default/rest pose (sign-poses.ts lines 862-870) ───

def REST_POSE : HandPose :=
  { thumb := { mcp := { curl := 3/10, spread := 4/10 }, pip := { curl := 2/10 }, dip := { curl := 1/10 } },
    index := { mcp := { curl := 2/10, spread := 5/100 }, pip := { curl := 15/100 }, dip := { curl := 1/10 } },
    middle := { mcp := { curl := 2/10, spread := 0 }, pip := { curl := 15/100 }, dip := { curl := 1/10 } },
    ring := { mcp := { curl := 25/100, spread := (-5/100) }, pip := { curl := 2/10 }, dip := { curl := 15/100 } },
    pinky := { mcp := { curl := 3/10, spread := (-1/10) }, pip := { curl := 25/100 }, dip := { curl := 2/10 } },
    wrist := some { pitch := 0, yaw := 0, roll := 0 } }

-- ─── Text to Sign Gloss Pipeline (sign-poses.ts lines 750-833) ───

/-- The `'word' | 'fingerspell'` tag of a `SignGlossItem`. -/
inductive GlossType where
  | word
  | fingerspell
deriving DecidableEq, Repr

/-- `SignGlossItem` of sign-poses.ts. -/
structure SignGlossItem where
  type : GlossType
  value : String
  animation : Option SignAnimation := none
  letterPoses : Option (List HandPose) := none
deriving DecidableEq, Repr

/-- `getLetterPoses`: the letter-pose table of the given mode. -/
def getLetterPoses (mode : SignLanguageMode) : List (Char × HandPose) :=
  match mode with
  | .isl => ISL_LETTER_POSES
  | .asl => ASL_LETTER_POSES

/-- `ISL_WORD_ANIMATIONS` of the source is the object spread
`{ ...ASL_WORD_ANIMATIONS, <five ISL-specific entries> }`: the ASL table with
the keys `hello`, `thank you`, `water`, `school` and `good` overridden.  As an
association list queried with `List.lookup`, the overriding entries come first. -/
def ISL_WORD_ANIMATIONS : List (String × SignAnimation) :=
  ISL_WORD_ANIMATION_OVERRIDES ++ ASL_WORD_ANIMATIONS

/-- `getWordAnimations`: the word-animation table of the given mode. -/
def getWordAnimations (mode : SignLanguageMode) : List (String × SignAnimation) :=
  match mode with
  | .isl => ISL_WORD_ANIMATIONS
  | .asl => ASL_WORD_ANIMATIONS

/-- The character class of the JavaScript regex `\s` (ASCII part): space and the
five ASCII control whitespace characters. -/
def isJsWhitespace (c : Char) : Bool :=
  c = ' ' || c = '\t' || c = '\n' || c = '\r' || c = '\x0b' || c = '\x0c'

/-- `text.toLowerCase().replace(/[^a-z\s]/g, '')`: lowercase the text and keep
only the letters `a`-`z` and whitespace. -/
def normalizeText (text : String) : List Char :=
  text.toLower.toList.filter (fun c => ('a' ≤ c && c ≤ 'z') || isJsWhitespace c)

/-- `.split(/\s+/).filter(Boolean)` applied to the cleaned character list: the
maximal whitespace-free runs.  Splitting at every single whitespace character
and then dropping the empty strings is the same operation, because `+` is
greedy and `filter(Boolean)` drops every empty token. -/
def normalizeWords (text : String) : List String :=
  (((normalizeText text).splitOnP isJsWhitespace).map (fun l => String.mk l)).filter
    (fun w => w ≠ "")

/-- `words[i].split('').map(char => letterPoses[char]).filter(Boolean)`: the
letter poses of a fingerspelled word, dropping characters that have no pose in
the table. -/
def fingerspellPoses (letterPoses : List (Char × HandPose)) (w : String) : List HandPose :=
  w.toList.filterMap (fun c => List.lookup c letterPoses)

/-- One turn of the single-word part of the `textToSignGloss` loop body: a
matching single word becomes a `word` item, anything else is fingerspelled. -/
def glossSingle (wordAnimations : List (String × SignAnimation))
    (letterPoses : List (Char × HandPose)) (w : String) : SignGlossItem :=
  match List.lookup w wordAnimations with
  | some anim => { type := .word, value := w.toUpper, animation := some anim }
  | none =>
    { type := .fingerspell, value := w.toUpper,
      letterPoses := some (fingerspellPoses letterPoses w) }

/-- The `while (i < words.length)` loop of `textToSignGloss`, recursing on the
suffix of the word list that starts at the cursor `i`.  A three-word window
exists when at least three words remain (`i + 2 < words.length`), a two-word
window when at least two remain, and each match advances the cursor past the
words it consumed. -/
def glossLoop (wordAnimations : List (String × SignAnimation))
    (letterPoses : List (Char × HandPose)) : List String → List SignGlossItem
  | [] => []
  | [w] => [glossSingle wordAnimations letterPoses w]
  | [w1, w2] =>
    match List.lookup (w1 ++ " " ++ w2) wordAnimations with
    | some anim =>
      [{ type := .word, value := (w1 ++ " " ++ w2).toUpper, animation := some anim }]
    | none =>
      glossSingle wordAnimations letterPoses w1 :: glossLoop wordAnimations letterPoses [w2]
  | w1 :: w2 :: w3 :: rest =>
    match List.lookup (w1 ++ " " ++ w2 ++ " " ++ w3) wordAnimations with
    | some anim =>
      { type := .word, value := (w1 ++ " " ++ w2 ++ " " ++ w3).toUpper,
        animation := some anim } :: glossLoop wordAnimations letterPoses rest
    | none =>
      match List.lookup (w1 ++ " " ++ w2) wordAnimations with
      | some anim =>
        { type := .word, value := (w1 ++ " " ++ w2).toUpper,
          animation := some anim } :: glossLoop wordAnimations letterPoses (w3 :: rest)
      | none =>
        glossSingle wordAnimations letterPoses w1 ::
          glossLoop wordAnimations letterPoses (w2 :: w3 :: rest)

/-- `textToSignGloss` of sign-poses.ts. -/
def textToSignGloss (text : String) (mode : SignLanguageMode := .asl) : List SignGlossItem :=
  glossLoop (getWordAnimations mode) (getLetterPoses mode) (normalizeWords text)

-- ─── Pose interpolation (sign-poses.ts lines 835-860) ───

/-- The local closure `lerp = (a, b) => a + (b - a) * t` of `interpolatePose`. -/
def lerpQ (t a b : ℚ) : ℚ := a + (b - a) * t

/-- The local `interpolateFinger` of `interpolatePose`. -/
def interpolateFinger (t : ℚ) (fA fB : FingerPose) : FingerPose :=
  { mcp := { curl := lerpQ t fA.mcp.curl fB.mcp.curl,
             spread := lerpQ t fA.mcp.spread fB.mcp.spread },
    pip := { curl := lerpQ t fA.pip.curl fB.pip.curl },
    dip := { curl := lerpQ t fA.dip.curl fB.dip.curl } }

/-- `poseX.wrist?.field ?? 0` for the three wrist fields at once: the wrist of a
pose, with a missing wrist read as all-zero. -/
def wristOrZero (p : HandPose) : Wrist :=
  p.wrist.getD { pitch := 0, yaw := 0, roll := 0 }

/-- `interpolatePose` of sign-poses.ts. -/
def interpolatePose (poseA poseB : HandPose) (t : ℚ) : HandPose :=
  { thumb := interpolateFinger t poseA.thumb poseB.thumb,
    index := interpolateFinger t poseA.index poseB.index,
    middle := interpolateFinger t poseA.middle poseB.middle,
    ring := interpolateFinger t poseA.ring poseB.ring,
    pinky := interpolateFinger t poseA.pinky poseB.pinky,
    wrist := some
      { pitch := lerpQ t (wristOrZero poseA).pitch (wristOrZero poseB).pitch,
        yaw := lerpQ t (wristOrZero poseA).yaw (wristOrZero poseB).yaw,
        roll := lerpQ t (wristOrZero poseA).roll (wristOrZero poseB).roll } }



-- ─── Lip Sync Engine (lip-sync-engine.ts) ───

/-- `Viseme` of lip-sync-engine.ts. -/
structure Viseme where
  name : String
  mouthOpen : ℚ
  mouthWidth : ℚ
  lipRound : ℚ
  tongueOut : ℚ
  jawOpen : ℚ
  upperLipRaise : ℚ
deriving DecidableEq, Repr

/-- `VISEMES.rest` of lip-sync-engine.ts. -/
def restViseme : Viseme :=
  { name := "Rest", mouthOpen := 0, mouthWidth := 1, lipRound := 0, tongueOut := 0,
    jawOpen := 0, upperLipRaise := 0 }

/-- The `VISEMES` table of lip-sync-engine.ts. -/
def VISEMES : List (String × Viseme) := [
  ("rest", restViseme),
  ("mbp", { name := "M/B/P", mouthOpen := 0, mouthWidth := 9/10, lipRound := 0, tongueOut := 0, jawOpen := 0, upperLipRaise := 0 }),
  ("fv", { name := "F/V", mouthOpen := 1/10, mouthWidth := 95/100, lipRound := 0, tongueOut := 0, jawOpen := 5/100, upperLipRaise := 4/10 }),
  ("th", { name := "TH", mouthOpen := 15/100, mouthWidth := 1, lipRound := 0, tongueOut := 5/10, jawOpen := 1/10, upperLipRaise := 0 }),
  ("tdnl", { name := "T/D/N/L", mouthOpen := 15/100, mouthWidth := 1, lipRound := 0, tongueOut := 1/10, jawOpen := 1/10, upperLipRaise := 0 }),
  ("sz", { name := "S/Z", mouthOpen := 1/10, mouthWidth := 11/10, lipRound := 0, tongueOut := 0, jawOpen := 5/100, upperLipRaise := 0 }),
  ("shch", { name := "SH/CH", mouthOpen := 15/100, mouthWidth := 85/100, lipRound := 4/10, tongueOut := 0, jawOpen := 1/10, upperLipRaise := 0 }),
  ("kgng", { name := "K/G", mouthOpen := 25/100, mouthWidth := 1, lipRound := 0, tongueOut := 0, jawOpen := 2/10, upperLipRaise := 0 }),
  ("r", { name := "R", mouthOpen := 2/10, mouthWidth := 85/100, lipRound := 3/10, tongueOut := 0, jawOpen := 15/100, upperLipRaise := 0 }),
  ("w", { name := "W", mouthOpen := 15/100, mouthWidth := 65/100, lipRound := 7/10, tongueOut := 0, jawOpen := 1/10, upperLipRaise := 0 }),
  ("aa", { name := "AA (father)", mouthOpen := 7/10, mouthWidth := 11/10, lipRound := 0, tongueOut := 0, jawOpen := 6/10, upperLipRaise := 0 }),
  ("ae", { name := "AE (cat)", mouthOpen := 5/10, mouthWidth := 12/10, lipRound := 0, tongueOut := 0, jawOpen := 4/10, upperLipRaise := 0 }),
  ("ah", { name := "AH (but)", mouthOpen := 4/10, mouthWidth := 1, lipRound := 0, tongueOut := 0, jawOpen := 35/100, upperLipRaise := 0 }),
  ("ee", { name := "EE (feet)", mouthOpen := 2/10, mouthWidth := 13/10, lipRound := 0, tongueOut := 0, jawOpen := 1/10, upperLipRaise := 0 }),
  ("eh", { name := "EH (bed)", mouthOpen := 35/100, mouthWidth := 115/100, lipRound := 0, tongueOut := 0, jawOpen := 25/100, upperLipRaise := 0 }),
  ("ih", { name := "IH (sit)", mouthOpen := 25/100, mouthWidth := 12/10, lipRound := 0, tongueOut := 0, jawOpen := 15/100, upperLipRaise := 0 }),
  ("oh", { name := "OH (go)", mouthOpen := 45/100, mouthWidth := 7/10, lipRound := 8/10, tongueOut := 0, jawOpen := 35/100, upperLipRaise := 0 }),
  ("oo", { name := "OO (food)", mouthOpen := 3/10, mouthWidth := 6/10, lipRound := 9/10, tongueOut := 0, jawOpen := 2/10, upperLipRaise := 0 }),
  ("uh", { name := "UH (book)", mouthOpen := 3/10, mouthWidth := 8/10, lipRound := 5/10, tongueOut := 0, jawOpen := 2/10, upperLipRaise := 0 })]

/-- The `CHAR_TO_VISEME` table of lip-sync-engine.ts. -/
def CHAR_TO_VISEME : List (Char × String) := [
  ('b', "mbp"), ('m', "mbp"), ('p', "mbp"),
  ('f', "fv"), ('v', "fv"),
  ('t', "tdnl"), ('d', "tdnl"), ('n', "tdnl"), ('l', "tdnl"),
  ('s', "sz"), ('z', "sz"),
  ('k', "kgng"), ('g', "kgng"),
  ('r', "r"),
  ('w', "w"),
  ('h', "ah"),
  ('j', "shch"), ('y', "ee"),
  ('c', "kgng"),
  ('q', "kgng"),
  ('x', "kgng"),
  ('a', "ae"),
  ('e', "eh"),
  ('i', "ih"),
  ('o', "oh"),
  ('u', "uh"),
  (' ', "rest")]

/-- `LipSyncFrame` of lip-sync-engine.ts. -/
structure LipSyncFrame where
  viseme : Viseme
  character : Char
  time : ℚ
  duration : ℚ
deriving DecidableEq, Repr

/-- The `for (const char of chars)` loop of `generateLipSync`, carrying the
running `time` accumulator.  `CHAR_TO_VISEME[char] || 'rest'` and
`VISEMES[visemeKey] || VISEMES.rest` become `getD` on the lookups. -/
def lipSyncFramesAux (msPerChar : ℚ) : List Char → ℚ → List LipSyncFrame
  | [], _ => []
  | c :: cs, time =>
    let visemeKey := (List.lookup c CHAR_TO_VISEME).getD "rest"
    let viseme := (List.lookup visemeKey VISEMES).getD restViseme
    let isVowel := ['a', 'e', 'i', 'o', 'u'].contains c
    let duration := if isVowel then msPerChar * (13/10) else msPerChar * (8/10)
    { viseme := viseme, character := c, time := time, duration := duration } ::
      lipSyncFramesAux msPerChar cs (time + duration)

/-- `generateLipSync` of lip-sync-engine.ts. -/
def generateLipSync (text : String) (wordsPerMinute : ℚ := 150) : List LipSyncFrame :=
  lipSyncFramesAux ((60000 / wordsPerMinute) / 5) text.toLower.toList 0

/-- `getVisemeAtTime` of lip-sync-engine.ts: reverse linear scan for the first
frame (from the back) with `currentTime >= frame.time`; `rest` otherwise. -/
def getVisemeAtTime (frames : List LipSyncFrame) (currentTime : ℚ) : Viseme :=
  if frames.length = 0 then restViseme
  else
    match frames.reverse.find? (fun f => decide (f.time ≤ currentTime)) with
    | some f => f.viseme
    | none => restViseme

-- ─── Emotion Engine (avatar-model.tsx lines 609-830) ───

/-- `EmotionType` of avatar-model.tsx. -/
inductive EmotionType where
  | neutral
  | happy
  | sad
  | surprised
  | angry
  | thinking
  | excited
  | confused
deriving DecidableEq, Repr

/-- `FacialExpression` of avatar-model.tsx. -/
structure FacialExpression where
  emotion : EmotionType
  intensity : ℚ
  eyeOpenLeft : ℚ
  eyeOpenRight : ℚ
  eyeLookX : ℚ
  eyeLookY : ℚ
  pupilDilation : ℚ
  browLeftHeight : ℚ
  browRightHeight : ℚ
  browLeftAngle : ℚ
  browRightAngle : ℚ
  mouthSmile : ℚ
  mouthOpen : ℚ
  mouthWidth : ℚ
  jawOpen : ℚ
  cheekPuff : ℚ
  noseWrinkle : ℚ
  blushIntensity : ℚ
deriving DecidableEq, Repr

/-- `NEUTRAL_EXPRESSION` of avatar-model.tsx. -/
def NEUTRAL_EXPRESSION : FacialExpression :=
  { emotion := .neutral, intensity := 0,
    eyeOpenLeft := 1, eyeOpenRight := 1, eyeLookX := 0, eyeLookY := 0, pupilDilation := 1,
    browLeftHeight := 0, browRightHeight := 0, browLeftAngle := 0, browRightAngle := 0,
    mouthSmile := 0, mouthOpen := 0, mouthWidth := 1, jawOpen := 0,
    cheekPuff := 0, noseWrinkle := 0, blushIntensity := 0 }

/-- `Partial<FacialExpression>` restricted to the numeric fields: the shape of
the entries of the `EXPRESSIONS` preset table (no preset sets `emotion` or
`intensity`). -/
structure ExpressionPreset where
  eyeOpenLeft : Option ℚ := none
  eyeOpenRight : Option ℚ := none
  eyeLookX : Option ℚ := none
  eyeLookY : Option ℚ := none
  pupilDilation : Option ℚ := none
  browLeftHeight : Option ℚ := none
  browRightHeight : Option ℚ := none
  browLeftAngle : Option ℚ := none
  browRightAngle : Option ℚ := none
  mouthSmile : Option ℚ := none
  mouthOpen : Option ℚ := none
  mouthWidth : Option ℚ := none
  jawOpen : Option ℚ := none
  cheekPuff : Option ℚ := none
  noseWrinkle : Option ℚ := none
  blushIntensity : Option ℚ := none
deriving DecidableEq, Repr

/-- The `EXPRESSIONS` preset table of avatar-model.tsx. -/
def EXPRESSIONS : EmotionType → ExpressionPreset
  | .neutral => {}
  | .happy =>
    { eyeOpenLeft := some (85/100), eyeOpenRight := some (85/100),
      browLeftHeight := some (3/10), browRightHeight := some (3/10),
      mouthSmile := some (8/10), mouthWidth := some (12/10),
      cheekPuff := some (2/10), blushIntensity := some (15/100) }
  | .sad =>
    { eyeOpenLeft := some (7/10), eyeOpenRight := some (7/10), eyeLookY := some (-3/10),
      browLeftHeight := some (-4/10), browRightHeight := some (-4/10),
      browLeftAngle := some (5/10), browRightAngle := some (5/10),
      mouthSmile := some (-6/10), mouthWidth := some (85/100) }
  | .surprised =>
    { eyeOpenLeft := some (14/10), eyeOpenRight := some (14/10),
      pupilDilation := some (13/10),
      browLeftHeight := some (9/10), browRightHeight := some (9/10),
      mouthOpen := some (6/10), mouthSmile := some 0, jawOpen := some (4/10) }
  | .angry =>
    { eyeOpenLeft := some (8/10), eyeOpenRight := some (8/10),
      browLeftHeight := some (-5/10), browRightHeight := some (-5/10),
      browLeftAngle := some (-7/10), browRightAngle := some (-7/10),
      mouthSmile := some (-3/10), mouthWidth := some (9/10),
      noseWrinkle := some (6/10), jawOpen := some (15/100) }
  | .thinking =>
    { eyeOpenLeft := some (9/10), eyeOpenRight := some (75/100),
      eyeLookX := some (4/10), eyeLookY := some (3/10),
      browLeftHeight := some (4/10), browRightHeight := some (-1/10),
      mouthSmile := some (1/10), mouthWidth := some (9/10) }
  | .excited =>
    { eyeOpenLeft := some (13/10), eyeOpenRight := some (13/10),
      pupilDilation := some (12/10),
      browLeftHeight := some (7/10), browRightHeight := some (7/10),
      mouthSmile := some 1, mouthOpen := some (3/10), mouthWidth := some (13/10),
      cheekPuff := some (1/10), blushIntensity := some (3/10) }
  | .confused =>
    { eyeOpenLeft := some (11/10), eyeOpenRight := some (8/10), eyeLookX := some (2/10),
      browLeftHeight := some (6/10), browRightHeight := some (-2/10),
      browLeftAngle := some (3/10), browRightAngle := some (-4/10),
      mouthSmile := some (-1/10), mouthWidth := some (95/100) }

/-- The `EMOTION_KEYWORDS` table of avatar-model.tsx. -/
def EMOTION_KEYWORDS : EmotionType → List String
  | .happy =>
    ["happy", "joy", "glad", "great", "wonderful", "amazing", "love", "like", "good",
     "beautiful", "fantastic", "excellent", "awesome", "perfect", "fun", "smile", "laugh",
     "celebrate", "yes", "thank", "thanks", "welcome", "friend", "play", "enjoy"]
  | .sad =>
    ["sad", "sorry", "miss", "lonely", "cry", "tears", "unhappy", "depressed", "bad",
     "hurt", "pain", "lose", "lost", "fail", "failure", "disappoint", "unfortunately",
     "grief", "mourn"]
  | .surprised =>
    ["surprise", "wow", "amazing", "unbelievable", "shocked", "incredible", "suddenly",
     "unexpected", "what", "really", "seriously", "oh", "omg"]
  | .angry =>
    ["angry", "mad", "hate", "furious", "awful", "terrible", "horrible", "stop", "no",
     "wrong", "fight", "unfair", "annoyed", "frustrated", "stupid"]
  | .thinking =>
    ["think", "wonder", "maybe", "perhaps", "consider", "question", "how", "why",
     "understand", "learn", "know", "study", "analyze", "problem", "solve", "idea"]
  | .excited =>
    ["excited", "thrilled", "can\x27t wait", "yay", "hooray", "fantastic", "incredible",
     "brilliant", "absolutely", "definitely", "totally"]
  | .confused =>
    ["confused", "don\x27t understand", "what", "huh", "weird", "strange", "unclear",
     "complicated", "difficult", "hard", "where"]
  | .neutral => []

/-- The mutable `scores` record of `analyzeEmotion`. -/
structure EmotionScores where
  neutral : ℚ
  happy : ℚ
  sad : ℚ
  surprised : ℚ
  angry : ℚ
  thinking : ℚ
  excited : ℚ
  confused : ℚ
deriving DecidableEq, Repr

/-- The initial `scores` of `analyzeEmotion`: a small `0.1` baseline for
`neutral` so it wins when nothing else matches, `0` everywhere else. -/
def initialScores : EmotionScores :=
  { neutral := 1/10, happy := 0, sad := 0, surprised := 0, angry := 0, thinking := 0,
    excited := 0, confused := 0 }

/-- The inner `for (const [emotion, keywords] of Object.entries(EMOTION_KEYWORDS))`
loop of `analyzeEmotion` for one token: each category whose keyword list
contains the token scores one more point (the `neutral` list is empty, so
`neutral` never scores here). -/
def bumpScores (s : EmotionScores) (word : String) : EmotionScores :=
  let s := if (EMOTION_KEYWORDS .happy).contains word then { s with happy := s.happy + 1 } else s
  let s := if (EMOTION_KEYWORDS .sad).contains word then { s with sad := s.sad + 1 } else s
  let s := if (EMOTION_KEYWORDS .surprised).contains word then { s with surprised := s.surprised + 1 } else s
  let s := if (EMOTION_KEYWORDS .angry).contains word then { s with angry := s.angry + 1 } else s
  let s := if (EMOTION_KEYWORDS .thinking).contains word then { s with thinking := s.thinking + 1 } else s
  let s := if (EMOTION_KEYWORDS .excited).contains word then { s with excited := s.excited + 1 } else s
  let s := if (EMOTION_KEYWORDS .confused).contains word then { s with confused := s.confused + 1 } else s
  s

/-- `text.toLowerCase().split(/\s+/)` with JavaScript semantics: splitting the
empty string yields `[""]`; otherwise the tokens are the maximal
whitespace-free runs, with an extra empty token in front when the string starts
with whitespace and one at the end when it ends with whitespace. -/
def jsSplitWhitespace (s : String) : List String :=
  match s.toList with
  | [] => [""]
  | c :: cs =>
    let toks := ((s.toList.splitOnP isJsWhitespace).map (fun l => String.mk l)).filter
      (fun w => w ≠ "")
    let toks := if isJsWhitespace c then "" :: toks else toks
    if isJsWhitespace ((c :: cs).getLast (List.cons_ne_nil c cs)) then toks ++ [""] else toks

/-- `(text.match(/!/g) || []).length`: the number of occurrences of a character. -/
def countChar (s : String) (c : Char) : ℕ :=
  (s.toList.filter (fun x => x = c)).length

/-- The `scores` object in declaration order, as traversed by
`Object.entries(scores)` in the final maximum search. -/
def scoreEntries (s : EmotionScores) : List (EmotionType × ℚ) :=
  [(.neutral, s.neutral), (.happy, s.happy), (.sad, s.sad), (.surprised, s.surprised),
   (.angry, s.angry), (.thinking, s.thinking), (.excited, s.excited), (.confused, s.confused)]

/-- The result record `{ emotion, intensity }` of `analyzeEmotion`. -/
structure EmotionResult where
  emotion : EmotionType
  intensity : ℚ
deriving DecidableEq, Repr

/-- The final maximum search of `analyzeEmotion`: starting from
`maxEmotion = 'neutral'`, `maxScore = 0`, take each entry whose score strictly
exceeds the maximum so far. -/
def maxEntry (s : EmotionScores) : EmotionType × ℚ :=
  (scoreEntries s).foldl (fun acc p => if acc.2 < p.2 then p else acc) (.neutral, 0)

/-- The `scores` record of `analyzeEmotion` after keyword counting and the
`!`/`?` punctuation boosts, right before the maximum search. -/
def finalScores (text : String) : EmotionScores :=
  let words := jsSplitWhitespace text.toLower
  let scores := words.foldl bumpScores initialScores
  let exclamations := countChar text '!'
  let scores :=
    if exclamations > 0 then
      { scores with excited := scores.excited + exclamations * (3/10),
                    surprised := scores.surprised + exclamations * (2/10) }
    else scores
  let questions := countChar text '?'
  let scores :=
    if questions > 0 then
      { scores with thinking := scores.thinking + questions * (3/10),
                    confused := scores.confused + questions * (2/10) }
    else scores
  scores

/-- `analyzeEmotion` of avatar-model.tsx. -/
def analyzeEmotion (text : String) : EmotionResult :=
  let m := maxEntry (finalScores text)
  { emotion := m.1, intensity := min 1 (m.2 / 3) }

/-- The score the `scores` record assigns to one category. -/
def scoreOf (s : EmotionScores) : EmotionType → ℚ
  | .neutral => s.neutral
  | .happy => s.happy
  | .sad => s.sad
  | .surprised => s.surprised
  | .angry => s.angry
  | .thinking => s.thinking
  | .excited => s.excited
  | .confused => s.confused

/-- One field update of the blending loop of `getExpression`: a field present in
the preset becomes `neutralVal + (value - neutralVal) * intensity`, a missing
field keeps its neutral value. -/
def blendField (intensity neutralVal : ℚ) (presetVal : Option ℚ) : ℚ :=
  match presetVal with
  | some value => neutralVal + (value - neutralVal) * intensity
  | none => neutralVal

/-- `getExpression` of avatar-model.tsx. -/
def getExpression (emotion : EmotionType) (intensity : ℚ := 1) : FacialExpression :=
  let preset := EXPRESSIONS emotion
  { emotion := emotion, intensity := intensity,
    eyeOpenLeft := blendField intensity NEUTRAL_EXPRESSION.eyeOpenLeft preset.eyeOpenLeft,
    eyeOpenRight := blendField intensity NEUTRAL_EXPRESSION.eyeOpenRight preset.eyeOpenRight,
    eyeLookX := blendField intensity NEUTRAL_EXPRESSION.eyeLookX preset.eyeLookX,
    eyeLookY := blendField intensity NEUTRAL_EXPRESSION.eyeLookY preset.eyeLookY,
    pupilDilation := blendField intensity NEUTRAL_EXPRESSION.pupilDilation preset.pupilDilation,
    browLeftHeight := blendField intensity NEUTRAL_EXPRESSION.browLeftHeight preset.browLeftHeight,
    browRightHeight := blendField intensity NEUTRAL_EXPRESSION.browRightHeight preset.browRightHeight,
    browLeftAngle := blendField intensity NEUTRAL_EXPRESSION.browLeftAngle preset.browLeftAngle,
    browRightAngle := blendField intensity NEUTRAL_EXPRESSION.browRightAngle preset.browRightAngle,
    mouthSmile := blendField intensity NEUTRAL_EXPRESSION.mouthSmile preset.mouthSmile,
    mouthOpen := blendField intensity NEUTRAL_EXPRESSION.mouthOpen preset.mouthOpen,
    mouthWidth := blendField intensity NEUTRAL_EXPRESSION.mouthWidth preset.mouthWidth,
    jawOpen := blendField intensity NEUTRAL_EXPRESSION.jawOpen preset.jawOpen,
    cheekPuff := blendField intensity NEUTRAL_EXPRESSION.cheekPuff preset.cheekPuff,
    noseWrinkle := blendField intensity NEUTRAL_EXPRESSION.noseWrinkle preset.noseWrinkle,
    blushIntensity := blendField intensity NEUTRAL_EXPRESSION.blushIntensity preset.blushIntensity }



-- ─── Playback controller (sign-language-3d.tsx, `SignLanguage3D`) ───

/-- The `'signs' | 'spell'` display mode of the controller. -/
inductive SignMode where
  | signs
  | spell
deriving DecidableEq, Repr

/-- The per-render context the playback callbacks close over: the display mode,
the resolved gloss items `textToSignGloss(text, languageMode)` and the
fingerspell character list `spellChars`.  These are derived from props and
change only when the text or a mode changes, never during a playback step. -/
structure PlaybackCtx where
  signMode : SignMode
  glossItems : List SignGlossItem
  spellChars : List Char
deriving DecidableEq, Repr

/-- The playback-relevant state of the `SignLanguage3D` component together with
the JavaScript timer queue.  `pending` is the queue of advancement timeouts
that have been scheduled with `setTimeout` and neither fired nor been
cancelled, identified by fresh numbers drawn from `nextId`; `timerRef` is the
component's `timerRef.current`.  `lipSyncOn` records whether the lip-sync
sampling interval is running.  Timeout delays and wall-clock times are
abstracted away: the claims under study concern which timers exist, not when
they fire. -/
structure CtrlState where
  playing : Bool
  timerRef : Option ℕ
  pending : List ℕ
  nextId : ℕ
  lipSyncOn : Bool
  currentItemIndex : ℕ
  currentKeyframe : ℕ
  currentLetterIndex : ℕ
  currentPose : HandPose
  currentViseme : Viseme
deriving DecidableEq, Repr

/-- `clearTimer`: `if (timerRef.current) { clearTimeout(timerRef.current);
timerRef.current = null }`.  `clearTimeout` removes the timeout from the queue
if it is still pending and is a no-op otherwise, which is exactly
`List.erase`. -/
def clearTimer (s : CtrlState) : CtrlState :=
  match s.timerRef with
  | some t => { s with pending := s.pending.erase t, timerRef := none }
  | none => s

/-- `startLipSync`: clears any running sampling interval and starts a new one
(the wall-clock start time is abstracted away). -/
def startLipSync (s : CtrlState) : CtrlState :=
  { s with lipSyncOn := true }

/-- `stopLipSync`: clears the sampling interval and resets the viseme. -/
def stopLipSync (s : CtrlState) : CtrlState :=
  { s with lipSyncOn := false, currentViseme := restViseme }

/-- `stopPlaying`: `setPlaying(false); clearTimer(); stopLipSync()`. -/
def stopPlaying (s : CtrlState) : CtrlState :=
  stopLipSync (clearTimer { s with playing := false })

/-- `timerRef.current = setTimeout(advancePlayback, ...)`: a fresh timeout
joins the queue and the ref is overwritten with it — the previous value of the
ref is NOT cancelled here. -/
def scheduleAdvance (s : CtrlState) : CtrlState :=
  { s with pending := s.pending ++ [s.nextId], timerRef := some s.nextId,
           nextId := s.nextId + 1 }

/-- The body of the `advancePlayback` callback (sign-language-3d.tsx lines
213-245), minus the `setTimeout` delays, which are abstracted away.  Note the
two guard shapes `item.type === 'word' && item.animation` and
`item.type === 'fingerspell' && item.letterPoses`; when neither holds the
callback falls through and does nothing. -/
def advancePlayback (ctx : PlaybackCtx) (s : CtrlState) : CtrlState :=
  match ctx.signMode with
  | .signs =>
    match ctx.glossItems.get? s.currentItemIndex with
    | none => stopPlaying s
    | some item =>
      match item.type, item.animation, item.letterPoses with
      | .word, some anim, _ =>
        let maxKf := anim.poses.length - 1
        if s.currentKeyframe < maxKf then
          scheduleAdvance { s with currentKeyframe := s.currentKeyframe + 1 }
        else if anim.loop.getD false then
          scheduleAdvance { s with currentKeyframe := 0 }
        else if s.currentItemIndex < ctx.glossItems.length - 1 then
          scheduleAdvance { s with currentItemIndex := s.currentItemIndex + 1,
                                   currentKeyframe := 0, currentLetterIndex := 0 }
        else stopPlaying s
      | .fingerspell, _, some lp =>
        if s.currentLetterIndex < lp.length - 1 then
          scheduleAdvance { s with currentLetterIndex := s.currentLetterIndex + 1 }
        else if s.currentItemIndex < ctx.glossItems.length - 1 then
          scheduleAdvance { s with currentItemIndex := s.currentItemIndex + 1,
                                   currentKeyframe := 0, currentLetterIndex := 0 }
        else stopPlaying s
      | _, _, _ => s
  | .spell =>
    if s.currentLetterIndex < ctx.spellChars.length - 1 then
      scheduleAdvance { s with currentLetterIndex := s.currentLetterIndex + 1 }
    else stopPlaying s

/-- `startPlaying` (sign-language-3d.tsx lines 247-251): `setPlaying(true);
startLipSync(); timerRef.current = setTimeout(advancePlayback, ...)`.  It does
not call `clearTimer`. -/
def startPlaying (s : CtrlState) : CtrlState :=
  scheduleAdvance (startLipSync { s with playing := true })

/-- `reset` (sign-language-3d.tsx lines 255-258): `stopPlaying()` followed by
zeroing the position data and restoring the rest pose and rest viseme. -/
def resetPlayback (s : CtrlState) : CtrlState :=
  { stopPlaying s with currentItemIndex := 0, currentKeyframe := 0, currentLetterIndex := 0,
                       currentPose := REST_POSE, currentViseme := restViseme }

/-- `stepForward` (sign-language-3d.tsx lines 260-263). -/
def stepForward (ctx : PlaybackCtx) (s : CtrlState) : CtrlState :=
  match ctx.signMode with
  | .signs =>
    if s.currentItemIndex < ctx.glossItems.length - 1 then
      { s with currentItemIndex := s.currentItemIndex + 1, currentKeyframe := 0,
               currentLetterIndex := 0 }
    else s
  | .spell =>
    if s.currentLetterIndex < ctx.spellChars.length - 1 then
      { s with currentLetterIndex := s.currentLetterIndex + 1 }
    else s

/-- `stepBackward` (sign-language-3d.tsx lines 265-268). -/
def stepBackward (ctx : PlaybackCtx) (s : CtrlState) : CtrlState :=
  match ctx.signMode with
  | .signs =>
    if s.currentItemIndex > 0 then
      { s with currentItemIndex := s.currentItemIndex - 1, currentKeyframe := 0,
               currentLetterIndex := 0 }
    else s
  | .spell =>
    if s.currentLetterIndex > 0 then { s with currentLetterIndex := s.currentLetterIndex - 1 }
    else s

/-- The direct index jump of the sign-sequence chip row (sign-language-3d.tsx
line 550): `setCurrentItemIndex(idx); setCurrentKeyframe(0);
setCurrentLetterIndex(0)`. -/
def jumpToItem (idx : ℕ) (s : CtrlState) : CtrlState :=
  { s with currentItemIndex := idx, currentKeyframe := 0, currentLetterIndex := 0 }

/-- `totalItems` of the component: gloss items in `signs` mode, characters in
`spell` mode. -/
def totalItems (ctx : PlaybackCtx) : ℕ :=
  match ctx.signMode with
  | .signs => ctx.glossItems.length
  | .spell => ctx.spellChars.length

/-- The user/timer events that drive the controller. -/
inductive Event where
  | pressPlay
  | pressPause
  | timerFires (t : ℕ)
  | pressReset
  | pressStepForward
  | pressStepBackward
  | jumpTo (idx : ℕ)
deriving DecidableEq, Repr

/-- One controller transition; `none` when the event is not available in the
given state.  The play button exists only while `playing` is false (otherwise
the pause button is rendered in its place) and is disabled when there is
nothing to play; the pause button exists only while `playing`; a timeout can
fire only while it is pending (a fired or cancelled timeout never runs).  When
a pending timeout fires, the JavaScript runtime removes it from the queue and
then runs `advancePlayback`. -/
def stepEv (ctx : PlaybackCtx) : Event → CtrlState → Option CtrlState
  | .pressPlay, s =>
    if s.playing = false ∧ totalItems ctx ≠ 0 then some (startPlaying s) else none
  | .pressPause, s => if s.playing then some (stopPlaying s) else none
  | .timerFires t, s =>
    if t ∈ s.pending then some (advancePlayback ctx { s with pending := s.pending.erase t })
    else none
  | .pressReset, s => some (resetPlayback s)
  | .pressStepForward, s => some (stepForward ctx s)
  | .pressStepBackward, s => some (stepBackward ctx s)
  | .jumpTo idx, s => some (jumpToItem idx s)

/-- The state of the component right after mount: `playing` starts as the
`isPlaying` prop, position data at zero, rest pose, no timer ever scheduled. -/
def initState (externalPlaying : Bool) : CtrlState :=
  { playing := externalPlaying, timerRef := none, pending := [], nextId := 0,
    lipSyncOn := false, currentItemIndex := 0, currentKeyframe := 0,
    currentLetterIndex := 0, currentPose := REST_POSE, currentViseme := restViseme }

/-- The states the controller can actually be in: an initial state, or the
result of any available event from a reachable state. -/
inductive Reachable (ctx : PlaybackCtx) : CtrlState → Prop where
  | init (b : Bool) : Reachable ctx (initState b)
  | step {s s' : CtrlState} (e : Event) :
      Reachable ctx s → stepEv ctx e s = some s' → Reachable ctx s'



-- ════ Spec-side definitions used by the theorem statements ════

/-- Spec §4.4 reading of `getExpression`: every numeric field is
`neutral + (preset - neutral) * intensity`, a field absent from the preset
keeping its neutral value, and the `emotion`/`intensity` fields are the
arguments. -/
def specBlendExpression (emotion : EmotionType) (intensity : ℚ) : FacialExpression :=
  let n := NEUTRAL_EXPRESSION
  let p := EXPRESSIONS emotion
  { emotion := emotion, intensity := intensity,
    eyeOpenLeft := n.eyeOpenLeft + (p.eyeOpenLeft.getD n.eyeOpenLeft - n.eyeOpenLeft) * intensity,
    eyeOpenRight := n.eyeOpenRight + (p.eyeOpenRight.getD n.eyeOpenRight - n.eyeOpenRight) * intensity,
    eyeLookX := n.eyeLookX + (p.eyeLookX.getD n.eyeLookX - n.eyeLookX) * intensity,
    eyeLookY := n.eyeLookY + (p.eyeLookY.getD n.eyeLookY - n.eyeLookY) * intensity,
    pupilDilation := n.pupilDilation + (p.pupilDilation.getD n.pupilDilation - n.pupilDilation) * intensity,
    browLeftHeight := n.browLeftHeight + (p.browLeftHeight.getD n.browLeftHeight - n.browLeftHeight) * intensity,
    browRightHeight := n.browRightHeight + (p.browRightHeight.getD n.browRightHeight - n.browRightHeight) * intensity,
    browLeftAngle := n.browLeftAngle + (p.browLeftAngle.getD n.browLeftAngle - n.browLeftAngle) * intensity,
    browRightAngle := n.browRightAngle + (p.browRightAngle.getD n.browRightAngle - n.browRightAngle) * intensity,
    mouthSmile := n.mouthSmile + (p.mouthSmile.getD n.mouthSmile - n.mouthSmile) * intensity,
    mouthOpen := n.mouthOpen + (p.mouthOpen.getD n.mouthOpen - n.mouthOpen) * intensity,
    mouthWidth := n.mouthWidth + (p.mouthWidth.getD n.mouthWidth - n.mouthWidth) * intensity,
    jawOpen := n.jawOpen + (p.jawOpen.getD n.jawOpen - n.jawOpen) * intensity,
    cheekPuff := n.cheekPuff + (p.cheekPuff.getD n.cheekPuff - n.cheekPuff) * intensity,
    noseWrinkle := n.noseWrinkle + (p.noseWrinkle.getD n.noseWrinkle - n.noseWrinkle) * intensity,
    blushIntensity := n.blushIntensity + (p.blushIntensity.getD n.blushIntensity - n.blushIntensity) * intensity }

/-- A well-formed gloss item with respect to a word-animation table and a
letter-pose table:  a `word` item carries the animation the table assigns to
some key whose uppercase form is the item's value; a `fingerspell` item
carries the letter poses of some word (each pose coming from the table, in
particular at most one pose per character of the word) whose uppercase form is
the item's value. -/
def wellFormedItem (wa : List (String × SignAnimation)) (lp : List (Char × HandPose))
    (item : SignGlossItem) : Prop :=
  match item.type with
  | .word =>
    ∃ k a, List.lookup k wa = some a ∧ item.value = k.toUpper ∧
      item.animation = some a ∧ item.letterPoses = none
  | .fingerspell =>
    ∃ w, item.value = String.toUpper w ∧ item.animation = none ∧
      item.letterPoses = some (fingerspellPoses lp w) ∧
      (fingerspellPoses lp w).length ≤ w.toList.length ∧
      ∀ p ∈ fingerspellPoses lp w, ∃ c, c ∈ w.toList ∧ List.lookup c lp = some p

/-- `framesChainFrom t0 frames`: the first frame starts at `t0` and every
following frame starts exactly where the previous one ends (its `time` plus
its `duration`) — no gaps and no overlaps. -/
def framesChainFrom : ℚ → List LipSyncFrame → Prop
  | _, [] => True
  | t0, f :: rest => f.time = t0 ∧ framesChainFrom (f.time + f.duration) rest

/-- The invariant behind claim C1: when no timer is pending nothing is
constrained, and when exactly one advancement timeout is pending the timer ref
points at it; two or more pending timeouts are forbidden.  Moreover a timer can
be pending only while `playing`. -/
def TimerInv (s : CtrlState) : Prop :=
  (s.playing = false → s.pending = []) ∧
  match s.pending with
  | [] => True
  | [t] => s.timerRef = some t
  | _ :: _ :: _ => False

/-- A concrete state with one pending advancement timeout (id `0`), as the
controller is in right after `startPlaying` runs from the initial idle state. -/
def timerFullState : CtrlState :=
  { playing := false, timerRef := some 0, pending := [0], nextId := 1, lipSyncOn := false,
    currentItemIndex := 0, currentKeyframe := 0, currentLetterIndex := 0,
    currentPose := REST_POSE, currentViseme := restViseme }

/-- A concrete playback context: `signs` mode over the resolved gloss of
`"hello"` in ASL. -/
def demoCtx : PlaybackCtx :=
  { signMode := .signs, glossItems := textToSignGloss "hello" .asl, spellChars := [] }



-- ════ Helper lemmas ════

theorem lerpQ_zero (a b : ℚ) : lerpQ 0 a b = a := by simp [lerpQ]

theorem lerpQ_one (a b : ℚ) : lerpQ 1 a b = b := by simp [lerpQ]

theorem interpolateFinger_zero (fA fB : FingerPose) : interpolateFinger 0 fA fB = fA := by
  simp [interpolateFinger, lerpQ_zero]

theorem interpolateFinger_one (fA fB : FingerPose) : interpolateFinger 1 fA fB = fB := by
  simp [interpolateFinger, lerpQ_one]

-- ════ C5 ════

/-- C5: for all hand poses `A` and `B`, `interpolatePose A B 0` agrees with `A`
and `interpolatePose A B 1` agrees with `B` on every finger field (mcp.curl,
mcp.spread, pip.curl, dip.curl of all five fingers) and on every wrist field,
a missing wrist on an input pose being read as the all-zero wrist. -/
theorem interpolatePose_boundary (A B : HandPose) :
    interpolatePose A B 0 = { A with wrist := some (wristOrZero A) } ∧
    interpolatePose A B 1 = { B with wrist := some (wristOrZero B) } := by
  constructor <;>
    simp [interpolatePose, interpolateFinger_zero, interpolateFinger_one, lerpQ_zero, lerpQ_one]

-- ════ C8 ════

/-- C8: `getExpression emotion intensity` is exactly the linear blend
`neutral + (preset - neutral) * intensity` on every numeric field, a field the
preset omits keeping its neutral value, with the `emotion` and `intensity`
fields taken from the arguments. -/
theorem getExpression_is_blend (e : EmotionType) (i : ℚ) :
    getExpression e i = specBlendExpression e i := by
  cases e <;>
    simp [getExpression, specBlendExpression, blendField, EXPRESSIONS, NEUTRAL_EXPRESSION,
      FacialExpression.mk.injEq]

theorem glossSingle_wf (wa : List (String × SignAnimation)) (lp : List (Char × HandPose))
    (w : String) : wellFormedItem wa lp (glossSingle wa lp w) := by
  unfold glossSingle
  cases h : List.lookup w wa with
  | some anim => exact ⟨w, anim, h, rfl, rfl, rfl⟩
  | none =>
    refine ⟨w, rfl, rfl, rfl, List.length_filterMap_le _ _, ?_⟩
    intro p hp
    rcases List.mem_filterMap.1 hp with ⟨c, hc, he⟩
    exact ⟨c, hc, he⟩

theorem glossLoop_wf (wa : List (String × SignAnimation)) (lp : List (Char × HandPose))
    (ws : List String) : ∀ item ∈ glossLoop wa lp ws, wellFormedItem wa lp item := by
  induction ws using glossLoop.induct wa lp with
  | case1 => simp [glossLoop]
  | case2 w =>
    intro item hitem
    simp [glossLoop] at hitem
    subst hitem
    exact glossSingle_wf wa lp w
  | case3 w1 w2 anim h2 =>
    intro item hitem
    simp [glossLoop, h2] at hitem
    subst hitem
    exact ⟨w1 ++ " " ++ w2, anim, h2, rfl, rfl, rfl⟩
  | case4 w1 w2 h2 ih =>
    intro item hitem
    simp [glossLoop, h2] at hitem
    rcases hitem with rfl | rfl
    · exact glossSingle_wf wa lp w1
    · exact glossSingle_wf wa lp w2
  | case5 w1 w2 w3 rest anim h3 ih =>
    intro item hitem
    simp [glossLoop, h3] at hitem
    rcases hitem with rfl | hitem
    · exact ⟨w1 ++ " " ++ w2 ++ " " ++ w3, anim, h3, rfl, rfl, rfl⟩
    · exact ih item hitem
  | case6 w1 w2 w3 rest h3 anim h2 ih =>
    intro item hitem
    simp [glossLoop, h3, h2] at hitem
    rcases hitem with rfl | hitem
    · exact ⟨w1 ++ " " ++ w2, anim, h2, rfl, rfl, rfl⟩
    · exact ih item hitem
  | case7 w1 w2 w3 rest h3 h2 ih =>
    intro item hitem
    simp [glossLoop, h3, h2] at hitem
    rcases hitem with rfl | hitem
    · exact glossSingle_wf wa lp w1
    · exact ih item hitem


-- ════ C10 ════

/-- C10: every gloss item `textToSignGloss` returns is well-formed: a `word`
item carries the animation the active mode's word table assigns to the phrase
it consumed, a `fingerspell` item carries exactly the letter poses of its word
(every pose from the active mode's letter table, characters without a pose
dropped, so at most one pose per character), and each item's value is the
uppercase form of the word or phrase it consumed. -/
theorem textToSignGloss_wellFormed (text : String) (mode : SignLanguageMode) :
    ∀ item ∈ textToSignGloss text mode,
      wellFormedItem (getWordAnimations mode) (getLetterPoses mode) item := by
  intro item hitem
  exact glossLoop_wf (getWordAnimations mode) (getLetterPoses mode) (normalizeWords text)
    item hitem

theorem textToSignGloss_wellFormed_witness :
    wellFormedItem (getWordAnimations .asl) (getLetterPoses .asl)
      { type := .word, value := "HELLO",
        animation := List.lookup "hello" ASL_WORD_ANIMATIONS } :=
  textToSignGloss_wellFormed "hello" .asl _ (by with_unfolding_all decide)

-- ════ C2 ════

/-- C2: the resolver is greedy: on `"thank you very much"` in ASL mode the
three-word window `"thank you very"` misses, the two-word window `"thank you"`
hits (preferred over the single word `"thank"`), and the remaining words
`"very"` and `"much"`, unknown to the table, are fingerspelled. -/
theorem textToSignGloss_greedy_thankYou :
    textToSignGloss "thank you very much" .asl =
      [{ type := .word, value := "THANK YOU",
         animation := List.lookup "thank you" ASL_WORD_ANIMATIONS },
       { type := .fingerspell, value := "VERY",
         letterPoses := some (fingerspellPoses ASL_LETTER_POSES "very") },
       { type := .fingerspell, value := "MUCH",
         letterPoses := some (fingerspellPoses ASL_LETTER_POSES "much") }] ∧
    (List.lookup "thank you" ASL_WORD_ANIMATIONS).isSome ∧
    List.lookup "thank you very" ASL_WORD_ANIMATIONS = none ∧
    List.lookup "very" ASL_WORD_ANIMATIONS = none ∧
    List.lookup "much" ASL_WORD_ANIMATIONS = none := by
  refine ⟨?_, ?_, ?_, ?_, ?_⟩ <;> with_unfolding_all decide

-- ════ C3 ════

/-- C3: `textToSignGloss` is a total function of its embedding; whenever the
normalized word list is empty — in particular for empty, whitespace-only and
punctuation-only input — it returns the empty gloss sequence, in either
language mode. -/
theorem textToSignGloss_empty :
    (∀ (text : String) (mode : SignLanguageMode),
        normalizeWords text = [] → textToSignGloss text mode = []) ∧
    (∀ mode : SignLanguageMode,
        textToSignGloss "" mode = [] ∧ textToSignGloss "  \t " mode = [] ∧
        textToSignGloss "?!.,:123" mode = []) := by
  constructor
  · intro text mode h
    unfold textToSignGloss
    rw [h]
    rfl
  · intro mode
    cases mode <;>
      exact ⟨by with_unfolding_all decide, by with_unfolding_all decide,
             by with_unfolding_all decide⟩

theorem textToSignGloss_empty_witness :
    normalizeWords "!!!" = [] ∧ textToSignGloss "!!!" .asl = [] :=
  ⟨by with_unfolding_all decide,
   textToSignGloss_empty.1 "!!!" .asl (by with_unfolding_all decide)⟩

-- ════ C9 ════

/-- C9: the ISL word table extends the ASL baseline: every ASL key is an ISL
key; on the five overridden keys (`hello`, `thank you`, `water`, `school`,
`good`) the ISL lookup returns the ISL-specific animation, different from the
ASL one; on every other key the ISL lookup returns the shared ASL animation. -/
theorem islWordTable_extends_asl :
    (∀ k, (List.lookup k (getWordAnimations .asl)).isSome →
        (List.lookup k (getWordAnimations .isl)).isSome) ∧
    (∀ k ∈ (["hello", "thank you", "water", "school", "good"] : List String),
        List.lookup k (getWordAnimations .isl) = List.lookup k ISL_WORD_ANIMATION_OVERRIDES ∧
        (List.lookup k ISL_WORD_ANIMATION_OVERRIDES).isSome ∧
        List.lookup k (getWordAnimations .isl) ≠ List.lookup k (getWordAnimations .asl)) ∧
    (∀ k, k ∉ (["hello", "thank you", "water", "school", "good"] : List String) →
        List.lookup k (getWordAnimations .isl) = List.lookup k (getWordAnimations .asl)) := by
  refine ⟨?_, ?_, ?_⟩
  · intro k h
    simp only [getWordAnimations, ISL_WORD_ANIMATIONS, List.lookup_append] at *
    cases hov : List.lookup k ISL_WORD_ANIMATION_OVERRIDES <;> simp [hov, h]
  · intro k hk
    fin_cases hk <;> refine ⟨?_, ?_, ?_⟩ <;> with_unfolding_all decide
  · intro k hk
    simp only [List.mem_cons, List.mem_singleton, not_or] at hk
    obtain ⟨h1, h2, h3, h4, h5, -⟩ := hk
    have e1 : (k == "hello") = false := beq_eq_false_iff_ne.mpr h1
    have e2 : (k == "thank you") = false := beq_eq_false_iff_ne.mpr h2
    have e3 : (k == "water") = false := beq_eq_false_iff_ne.mpr h3
    have e4 : (k == "school") = false := beq_eq_false_iff_ne.mpr h4
    have e5 : (k == "good") = false := beq_eq_false_iff_ne.mpr h5
    simp [getWordAnimations, ISL_WORD_ANIMATIONS, List.lookup_append,
      ISL_WORD_ANIMATION_OVERRIDES, List.lookup, e1, e2, e3, e4, e5]

theorem islWordTable_extends_asl_witness :
    (List.lookup "yes" (getWordAnimations .isl)).isSome ∧
    List.lookup "yes" (getWordAnimations .isl) = List.lookup "yes" (getWordAnimations .asl) ∧
    List.lookup "hello" (getWordAnimations .isl) ≠ List.lookup "hello" (getWordAnimations .asl) :=
  ⟨islWordTable_extends_asl.1 "yes" (by with_unfolding_all decide),
   islWordTable_extends_asl.2.2 "yes" (by with_unfolding_all decide),
   (islWordTable_extends_asl.2.1 "hello" (by with_unfolding_all decide)).2.2⟩


-- ════ C4 helper lemmas ════

theorem foldl_max_mem (init : EmotionType × ℚ) (l : List (EmotionType × ℚ)) :
    l.foldl (fun acc p => if acc.2 < p.2 then p else acc) init ∈ init :: l := by
  induction l generalizing init with
  | nil => simp
  | cons q l ih =>
    have h := ih (if init.2 < q.2 then q else init)
    simp only [List.foldl_cons]
    rcases List.mem_cons.1 h with h1 | h1
    · rw [h1]
      split
      · exact List.mem_cons_of_mem _ (List.mem_cons_self _ _)
      · exact List.mem_cons_self _ _
    · exact List.mem_cons_of_mem _ (List.mem_cons_of_mem _ h1)

theorem foldl_max_ge (init : EmotionType × ℚ) (l : List (EmotionType × ℚ)) :
    init.2 ≤ (l.foldl (fun acc p => if acc.2 < p.2 then p else acc) init).2 ∧
    ∀ p ∈ l, p.2 ≤ (l.foldl (fun acc p => if acc.2 < p.2 then p else acc) init).2 := by
  induction l generalizing init with
  | nil => simp
  | cons q l ih =>
    have hstep : init.2 ≤ (if init.2 < q.2 then q else init).2 := by
      split_ifs with h
      · exact le_of_lt h
      · exact le_rfl
    have hstepq : q.2 ≤ (if init.2 < q.2 then q else init).2 := by
      split_ifs with h
      · exact le_rfl
      · exact not_lt.1 h
    have h := ih (if init.2 < q.2 then q else init)
    simp only [List.foldl_cons]
    refine ⟨le_trans hstep h.1, ?_⟩
    intro p hp
    rcases List.mem_cons.1 hp with rfl | hp
    · exact le_trans hstepq h.1
    · exact h.2 p hp

theorem scoreEntries_snd (s : EmotionScores) : ∀ p ∈ scoreEntries s, p.2 = scoreOf s p.1 := by
  intro p hp
  fin_cases hp <;> rfl

theorem maxEntry_snd_eq (s : EmotionScores) (h : 0 < s.neutral) :
    (maxEntry s).2 = scoreOf s (maxEntry s).1 := by
  have hmem : maxEntry s ∈ ((.neutral, 0) : EmotionType × ℚ) :: scoreEntries s :=
    foldl_max_mem (.neutral, 0) (scoreEntries s)
  have hge : s.neutral ≤ (maxEntry s).2 :=
    (foldl_max_ge (.neutral, 0) (scoreEntries s)).2 (.neutral, s.neutral) (by simp [scoreEntries])
  rcases List.mem_cons.1 hmem with h0 | hm
  · exfalso
    rw [h0] at hge
    exact absurd (lt_of_lt_of_le h hge) (lt_irrefl 0)
  · exact scoreEntries_snd s _ hm

theorem maxEntry_is_max (s : EmotionScores) : ∀ e, scoreOf s e ≤ (maxEntry s).2 := by
  intro e
  have hmem : (e, scoreOf s e) ∈ scoreEntries s := by
    cases e <;> simp [scoreEntries, scoreOf]
  exact (foldl_max_ge (.neutral, 0) (scoreEntries s)).2 _ hmem

theorem bumpScores_neutral (s : EmotionScores) (w : String) :
    (bumpScores s w).neutral = s.neutral := by
  unfold bumpScores
  split_ifs <;> rfl

theorem foldl_bump_neutral (l : List String) (init : EmotionScores) :
    (l.foldl bumpScores init).neutral = init.neutral := by
  induction l generalizing init with
  | nil => rfl
  | cons w l ih => rw [List.foldl_cons, ih, bumpScores_neutral]

theorem finalScores_neutral (text : String) : (finalScores text).neutral = 1/10 := by
  unfold finalScores
  dsimp only
  split_ifs <;> simp [foldl_bump_neutral, initialScores]

-- ════ C4 ════

/-- C4 counterexample: `analyzeEmotion ""` does not return intensity `0`: the
`0.1` neutral baseline wins the maximum search, so the intensity is
`min(1, 0.1 / 3) = 1/30`. -/
theorem analyzeEmotion_empty_intensity_ne_zero :
    (analyzeEmotion "").intensity ≠ 0 := by
  with_unfolding_all decide

/-- C4 (amended): `analyzeEmotion ""` returns `neutral` with intensity exactly
`1/30` (the `0.1` neutral baseline divided by 3, not `0`);
`analyzeEmotion "I am so happy and excited!!!"` returns `happy` with positive
intensity; and in general the intensity is `min 1 (maxScore / 3)` where
`maxScore` is the winning category's score, which is maximal among all
categories. -/
theorem analyzeEmotion_spec :
    analyzeEmotion "" = { emotion := .neutral, intensity := 1/30 } ∧
    ((analyzeEmotion "I am so happy and excited!!!").emotion = .happy ∧
      0 < (analyzeEmotion "I am so happy and excited!!!").intensity) ∧
    ∀ text : String,
      (analyzeEmotion text).intensity =
        min 1 (scoreOf (finalScores text) (analyzeEmotion text).emotion / 3) ∧
      ∀ e, scoreOf (finalScores text) e ≤ scoreOf (finalScores text) (analyzeEmotion text).emotion := by
  refine ⟨by with_unfolding_all decide,
          ⟨by with_unfolding_all decide, by with_unfolding_all decide⟩, ?_⟩
  intro text
  have hn : 0 < (finalScores text).neutral := by
    rw [finalScores_neutral]
    norm_num
  have he : (analyzeEmotion text).emotion = (maxEntry (finalScores text)).1 := rfl
  have hi : (analyzeEmotion text).intensity = min 1 ((maxEntry (finalScores text)).2 / 3) := rfl
  constructor
  · rw [hi, he, ← maxEntry_snd_eq _ hn]
  · intro e
    rw [he, ← maxEntry_snd_eq _ hn]
    exact maxEntry_is_max _ e


-- ════ C6 helper lemmas ════

theorem filter_getLast?_eq_reverse_find? {α : Type} (p : α → Bool) (l : List α) :
    (l.filter p).getLast? = l.reverse.find? p := by
  rw [List.getLast?_eq_head?_reverse, ← List.filter_reverse]
  generalize l.reverse = m
  induction m with
  | nil => rfl
  | cons a m ih =>
    cases h : p a <;> simp [List.filter_cons, List.find?_cons, h, ih]

theorem getVisemeAtTime_eq_lastLE (frames : List LipSyncFrame) (t : ℚ) :
    getVisemeAtTime frames t =
      match (frames.filter (fun f => decide (f.time ≤ t))).getLast? with
      | some f => f.viseme
      | none => restViseme := by
  rw [filter_getLast?_eq_reverse_find?]
  unfold getVisemeAtTime
  by_cases h : frames = []
  · subst h
    rfl
  · have hlen : frames.length ≠ 0 := by simpa [List.length_eq_zero] using h
    simp only [hlen, if_false]

theorem lipSyncFramesAux_chain (m : ℚ) (cs : List Char) (t : ℚ) :
    framesChainFrom t (lipSyncFramesAux m cs t) := by
  induction cs generalizing t with
  | nil => trivial
  | cons c cs ih => exact ⟨rfl, ih _⟩

theorem lipSyncFramesAux_duration_pos (m : ℚ) (hm : 0 < m) (cs : List Char) (t : ℚ) :
    ∀ f ∈ lipSyncFramesAux m cs t, 0 < f.duration := by
  induction cs generalizing t with
  | nil =>
    intro f hf
    simp [lipSyncFramesAux] at hf
  | cons c cs ih =>
    intro f hf
    rw [lipSyncFramesAux] at hf
    rcases List.mem_cons.1 hf with rfl | hf
    · dsimp only
      split_ifs <;> exact mul_pos hm (by norm_num)
    · exact ih _ f hf

theorem framesChainFrom_time_ge (fs : List LipSyncFrame) :
    ∀ t0, framesChainFrom t0 fs → (∀ f ∈ fs, 0 < f.duration) → ∀ f ∈ fs, t0 ≤ f.time := by
  induction fs with
  | nil =>
    intro t0 _ _ f hf
    simp at hf
  | cons g fs ih =>
    intro t0 hchain hdur f hf
    rcases List.mem_cons.1 hf with rfl | hf
    · exact le_of_eq hchain.1.symm
    · have h2 := ih (g.time + g.duration) hchain.2
        (fun f hf => hdur f (List.mem_cons_of_mem _ hf)) f hf
      have h3 := hdur g (List.mem_cons_self _ _)
      have h4 : g.time = t0 := hchain.1
      linarith

theorem framesChainFrom_pairwise (fs : List LipSyncFrame) :
    ∀ t0, framesChainFrom t0 fs → (∀ f ∈ fs, 0 < f.duration) →
      fs.Pairwise (fun f g => f.time < g.time) := by
  induction fs with
  | nil =>
    intro t0 _ _
    simp
  | cons g fs ih =>
    intro t0 hchain hdur
    refine List.Pairwise.cons ?_ (ih _ hchain.2 (fun f hf => hdur f (List.mem_cons_of_mem _ hf)))
    intro f hf
    have hge := framesChainFrom_time_ge fs (g.time + g.duration) hchain.2
      (fun f hf => hdur f (List.mem_cons_of_mem _ hf)) f hf
    have hd := hdur g (List.mem_cons_self _ _)
    linarith

-- ════ C6 ════

/-- C6: for every text and positive words-per-minute, `generateLipSync` emits
frames whose times start at `0` and chain with no gaps and no overlaps (each
frame's time is the previous frame's time plus its duration), hence strictly
increase; and `getVisemeAtTime` returns the rest viseme on an empty frame list
and at any time preceding the first frame (all generated times are ≥ 0, e.g.
at `t = -1`), and otherwise the viseme of the last frame whose `time ≤ t`. -/
theorem generateLipSync_spec (text : String) (wpm : ℚ) (hw : 0 < wpm) :
    framesChainFrom 0 (generateLipSync text wpm) ∧
    (generateLipSync text wpm).Pairwise (fun f g => f.time < g.time) ∧
    (∀ t : ℚ, getVisemeAtTime ([] : List LipSyncFrame) t = restViseme) ∧
    (∀ t : ℚ, t < 0 → getVisemeAtTime (generateLipSync text wpm) t = restViseme) ∧
    (∀ t : ℚ, getVisemeAtTime (generateLipSync text wpm) t =
      match (List.filter (fun f => decide (f.time ≤ t)) (generateLipSync text wpm)).getLast? with
      | some f => f.viseme
      | none => restViseme) := by
  have hm : 0 < (60000 / wpm) / 5 := by positivity
  have hdur : ∀ f ∈ generateLipSync text wpm, 0 < f.duration :=
    lipSyncFramesAux_duration_pos _ hm text.toLower.toList 0
  have hchain : framesChainFrom 0 (generateLipSync text wpm) :=
    lipSyncFramesAux_chain _ _ _
  refine ⟨hchain, framesChainFrom_pairwise _ 0 hchain hdur, fun t => rfl, ?_,
    fun t => getVisemeAtTime_eq_lastLE _ t⟩
  intro t ht
  rw [getVisemeAtTime_eq_lastLE]
  have hfilter :
      List.filter (fun f => decide (f.time ≤ t)) (generateLipSync text wpm) = [] := by
    rw [List.filter_eq_nil_iff]
    intro f hf
    have hge := framesChainFrom_time_ge _ 0 hchain hdur f hf
    simp only [decide_eq_true_eq]
    intro hle
    linarith
  rw [hfilter]
  rfl

theorem generateLipSync_spec_witness :
    framesChainFrom 0 (generateLipSync "hi there" 150) ∧
    getVisemeAtTime (generateLipSync "hi there" 150) (-1) = restViseme :=
  ⟨(generateLipSync_spec "hi there" 150 (by norm_num)).1,
   (generateLipSync_spec "hi there" 150 (by norm_num)).2.2.2.1 (-1) (by norm_num)⟩


-- ════ C1 helper lemmas ════

theorem stopPlaying_pending (s : CtrlState)
    (h2 : match s.pending with
          | [] => True
          | [t] => s.timerRef = some t
          | _ :: _ :: _ => False) : (stopPlaying s).pending = [] := by
  unfold stopPlaying stopLipSync clearTimer
  rcases hp : s.pending with _ | ⟨a, _ | ⟨b, l⟩⟩ <;> rw [hp] at h2
  · cases ht : s.timerRef <;> simp [ht, hp]
  · simp [h2, hp]
  · exact h2.elim

theorem timerInv_stopPlaying (s : CtrlState) (h : TimerInv s) : TimerInv (stopPlaying s) := by
  have hp := stopPlaying_pending s h.2
  exact ⟨fun _ => hp, by rw [hp]; trivial⟩

theorem timerInv_scheduleAdvance (s : CtrlState) (hpend : s.pending = [])
    (hp : s.playing = true) : TimerInv (scheduleAdvance s) := by
  unfold TimerInv scheduleAdvance
  refine ⟨?_, ?_⟩
  · intro h
    rw [hp] at h
    exact absurd h (by simp)
  · simp [hpend]

theorem timerInv_advancePlayback (ctx : PlaybackCtx) (s : CtrlState)
    (hpend : s.pending = []) (hp : s.playing = true) : TimerInv (advancePlayback ctx s) := by
  have hinv : TimerInv s := ⟨fun _ => hpend, by rw [hpend]; trivial⟩
  unfold advancePlayback
  split
  · split
    · exact timerInv_stopPlaying s hinv
    · split
      · dsimp only
        split_ifs <;>
          first
            | exact timerInv_scheduleAdvance _ hpend hp
            | exact timerInv_stopPlaying s hinv
      · split_ifs <;>
          first
            | exact timerInv_scheduleAdvance _ hpend hp
            | exact timerInv_stopPlaying s hinv
      · exact hinv
  · split_ifs
    · exact timerInv_scheduleAdvance _ hpend hp
    · exact timerInv_stopPlaying s hinv

theorem reachable_timerInv (ctx : PlaybackCtx) (s : CtrlState) (h : Reachable ctx s) :
    TimerInv s := by
  induction h with
  | init b => exact ⟨fun _ => rfl, trivial⟩
  | @step s0 s1 e hr hstep ih =>
    cases e with
    | pressPlay =>
      simp only [stepEv] at hstep
      split_ifs at hstep with hcond
      injection hstep with h
      subst h
      exact timerInv_scheduleAdvance _ (ih.1 hcond.1) rfl
    | pressPause =>
      simp only [stepEv] at hstep
      split_ifs at hstep with hcond
      injection hstep with h
      subst h
      exact timerInv_stopPlaying _ ih
    | timerFires t =>
      simp only [stepEv] at hstep
      split_ifs at hstep with hcond
      injection hstep with h
      subst h
      rcases hp : s0.pending with _ | ⟨a, _ | ⟨b, l⟩⟩
      · rw [hp] at hcond
        exact absurd hcond (List.not_mem_nil t)
      · have hta : t = a := by
          rw [hp] at hcond
          simpa using hcond
        have hplay : s0.playing = true := by
          cases hpl : s0.playing
          · exact absurd hp (by rw [ih.1 hpl]; simp)
          · rfl
        have herase : ([a] : List ℕ).erase t = [] := by
          rw [hta]
          simp
        exact timerInv_advancePlayback ctx _ herase hplay
      · have h2 := ih.2
        rw [hp] at h2
        exact h2.elim
    | pressReset =>
      simp only [stepEv] at hstep
      injection hstep with h
      subst h
      exact timerInv_stopPlaying _ ih
    | pressStepForward =>
      simp only [stepEv] at hstep
      injection hstep with h
      subst h
      unfold stepForward
      split <;> split_ifs <;> exact ih
    | pressStepBackward =>
      simp only [stepEv] at hstep
      injection hstep with h
      subst h
      unfold stepBackward
      split <;> split_ifs <;> exact ih
    | jumpTo idx =>
      simp only [stepEv] at hstep
      injection hstep with h
      subst h
      exact ih


-- ════ C1 ════

/-- C1 counterexample: `startPlaying` does not cancel a pending advancement
timer before scheduling a new one.  Run on a state in which timeout `0` is
pending, it schedules timeout `1` and leaves `0` pending, so afterwards two
advancement timeouts are outstanding. -/
theorem startPlaying_does_not_cancel :
    (startPlaying timerFullState).pending = [0, 1] ∧
    0 ∈ (startPlaying timerFullState).pending ∧
    2 ≤ (startPlaying timerFullState).pending.length := by
  refine ⟨rfl, ?_, ?_⟩ <;> decide

/-- C1 (amended): although neither `startPlaying` nor `advancePlayback` cancels
the pending timer before scheduling (they overwrite `timerRef.current`), every
reachable controller state still has at most one pending advancement timeout,
because the play button is available only while idle, and every transition
into the idle state cancels the pending timeout. -/
theorem reachable_at_most_one_timer (ctx : PlaybackCtx) (s : CtrlState)
    (h : Reachable ctx s) : s.pending.length ≤ 1 := by
  have hinv := reachable_timerInv ctx s h
  rcases hp : s.pending with _ | ⟨a, _ | ⟨b, l⟩⟩
  · simp
  · simp
  · have h2 := hinv.2
    rw [hp] at h2
    exact h2.elim

theorem reachable_at_most_one_timer_witness :
    (startPlaying (initState false)).pending.length ≤ 1 :=
  reachable_at_most_one_timer demoCtx _
    (Reachable.step .pressPlay (Reachable.init false) (by with_unfolding_all decide))

-- ════ C7 ════

/-- C7 counterexample: invoked in the reachable playing state produced by
pressing play in the initial idle state, `reset` does change the playback
state, flipping `playing` back to false and cancelling the pending advancement
timeout — it does not leave the playback state exactly as it was. -/
theorem reset_changes_playback :
    stepEv demoCtx .pressPlay (initState false) = some (startPlaying (initState false)) ∧
    (startPlaying (initState false)).playing = true ∧
    (startPlaying (initState false)).pending = [0] ∧
    (resetPlayback (startPlaying (initState false))).playing = false ∧
    (resetPlayback (startPlaying (initState false))).pending = [] := by
  refine ⟨?_, ?_, ?_, ?_, ?_⟩ <;> with_unfolding_all decide

/-- C7 (amended): `stepForward`, `stepBackward` and the direct index jump leave
the playback state — the playing flag, the timer ref, the pending advancement
timeouts, the lip-sync sampler, and even the displayed pose and viseme —
exactly as they were, whether playing or idle, modifying only position data
(item index, keyframe, letter index); `reset`, by contrast, stops playback
first (`playing := false`, pending advancement timeout cancelled, lip-sync
sampler stopped) and then zeroes the position data and restores the rest pose
and rest viseme. -/
theorem step_ops_effect (ctx : PlaybackCtx) (s : CtrlState) :
    ((stepForward ctx s).playing = s.playing ∧ (stepForward ctx s).timerRef = s.timerRef ∧
      (stepForward ctx s).pending = s.pending ∧ (stepForward ctx s).lipSyncOn = s.lipSyncOn ∧
      (stepForward ctx s).currentPose = s.currentPose ∧
      (stepForward ctx s).currentViseme = s.currentViseme) ∧
    ((stepBackward ctx s).playing = s.playing ∧ (stepBackward ctx s).timerRef = s.timerRef ∧
      (stepBackward ctx s).pending = s.pending ∧ (stepBackward ctx s).lipSyncOn = s.lipSyncOn ∧
      (stepBackward ctx s).currentPose = s.currentPose ∧
      (stepBackward ctx s).currentViseme = s.currentViseme) ∧
    (∀ idx, (jumpToItem idx s).playing = s.playing ∧ (jumpToItem idx s).timerRef = s.timerRef ∧
      (jumpToItem idx s).pending = s.pending ∧ (jumpToItem idx s).lipSyncOn = s.lipSyncOn ∧
      (jumpToItem idx s).currentPose = s.currentPose ∧
      (jumpToItem idx s).currentViseme = s.currentViseme) ∧
    ((resetPlayback s).playing = false ∧ (resetPlayback s).timerRef = none ∧
      (resetPlayback s).pending = (clearTimer s).pending ∧
      (resetPlayback s).lipSyncOn = false ∧ (resetPlayback s).currentItemIndex = 0 ∧
      (resetPlayback s).currentKeyframe = 0 ∧ (resetPlayback s).currentLetterIndex = 0 ∧
      (resetPlayback s).currentPose = REST_POSE ∧
      (resetPlayback s).currentViseme = restViseme) := by
  obtain ⟨sm, gl, sp⟩ := ctx
  refine ⟨?_, ?_, fun idx => ⟨rfl, rfl, rfl, rfl, rfl, rfl⟩, ?_⟩
  · cases sm <;> unfold stepForward <;> dsimp only <;> split_ifs <;>
      exact ⟨rfl, rfl, rfl, rfl, rfl, rfl⟩
  · cases sm <;> unfold stepBackward <;> dsimp only <;> split_ifs <;>
      exact ⟨rfl, rfl, rfl, rfl, rfl, rfl⟩
  · refine ⟨?_, ?_, ?_, rfl, rfl, rfl, rfl, rfl, rfl⟩ <;>
      rcases ht : s.timerRef with _ | t <;>
        simp [resetPlayback, stopPlaying, stopLipSync, clearTimer, ht]

end Synapto
